import Mathlib

/-! Kaizen raw frame time: arithmetic and comparison of tick values.

A shallow embedding of the frame-time backends of the kaizen library
(`kaizen_raw_frame_time_apple_mach_absolute_time.c`,
`kaizen_raw_frame_time_posix_clock_gettime.c`,
`kaizen_raw_frame_time_win32_query_performance_counter.c`,
`kaizen_raw_reliable_frame_time_scope_win32.c`).

Conventions of the embedding.

* A C function with an out-parameter `result` returns `Option (code × value)`:
  `none` means that the process died inside the call (an `assert` aborted it, or an
  integer division by zero trapped), `some (code, value)` that the function returned
  `code` after storing `value` through `result`.
* `assert` is the macro of `<assert.h>`: every function takes the flag `ndebug`,
  which tells whether the translation unit was compiled with `NDEBUG` (release
  build, assertions expand to nothing) or without (debug build, assertions are
  checked).
* Pointer arguments always point to objects, so the `NULL != p` assertions hold
  and are left out.
* `uint64_t` is `Nat` reduced modulo `2 ^ 64`; `time_t` and `long` are `Int`
  reduced into the signed 64-bit range.
* A call of the platform (`mach_timebase_info`, `clock_getres`,
  `QueryPerformanceFrequency`) is given by its response: the value it returned and the
  value its argument holds afterwards.
-/

namespace Kaizen

/-- Modelled from the spec: `kaizen_bool` is declared in `kaizen_stddef.h`, which is
not among the sources; it is the truth-value type of the predicates. -/
abbrev kaizen_bool : Type := Bool

/-- Modelled from the spec: `KAIZEN_TRUE` of `kaizen_stddef.h`, the true value of
`kaizen_bool`. -/
def KAIZEN_TRUE : kaizen_bool := true

/-- Modelled from the spec: `KAIZEN_FALSE` of `kaizen_stddef.h`, the false value of
`kaizen_bool`. -/
def KAIZEN_FALSE : kaizen_bool := false

/-- Modelled from the spec: the `int` return codes. `KAIZEN_SUCCESS` comes from
`kaizen_stddef.h` and `ENOSYS`, `EAGAIN`, `ESRCH` from the platform's `errno.h`; neither
header is among the sources, so only the fact that the codes differ is kept. -/
inductive kaizen_return_code where
  | KAIZEN_SUCCESS
  | ENOSYS
  | EAGAIN
  | ESRCH
deriving DecidableEq, Repr

export kaizen_return_code (KAIZEN_SUCCESS ENOSYS EAGAIN ESRCH)

/-- The `assert` macro. With `NDEBUG` the expression is not evaluated at all;
otherwise the process aborts when the expression is false, or when evaluating the
expression itself aborts (`expression = none`). -/
def c_assert (ndebug : Bool) (expression : Option Bool) : Option Unit :=
  if ndebug then some ()
  else
    match expression with
    | some true => some ()
    | _ => none

/-- Addition of two `uint64_t` values: the sum modulo `2 ^ 64`. -/
def uint64_add (a b : Nat) : Nat := (a + b) % 2 ^ 64

/-- Subtraction of two `uint64_t` values: the difference modulo `2 ^ 64`. -/
def uint64_sub (a b : Nat) : Nat := (a + (2 ^ 64 - b % 2 ^ 64)) % 2 ^ 64

/-- Reduction of an integer into the signed 64-bit range, used for `time_t` and
`long` arithmetic. -/
def int64_wrap (x : Int) : Int := (x + 2 ^ 63) % 2 ^ 64 - 2 ^ 63

/-! ## Backend `mach_absolute_time` -/

namespace Mach

/-- The `struct kaizen_raw_frame_time_s` under `KAIZEN_USE_APPLE_MACH_ABSOLUTE_TIME`:
one `uint64_t interval`. -/
structure kaizen_raw_frame_time_s where
  interval : Nat
deriving DecidableEq, Repr

/-- The function `kaizen_frame_time_subtract` of the mach backend. -/
def kaizen_frame_time_subtract (ndebug : Bool)
    (later earlier : kaizen_raw_frame_time_s) :
    Option (kaizen_return_code × kaizen_raw_frame_time_s) := do
  c_assert ndebug (some (decide (later.interval ≥ earlier.interval)))
  let later_interval := later.interval
  let earlier_interval := earlier.interval
  let difference := uint64_sub later_interval earlier_interval
  pure (KAIZEN_SUCCESS, { interval := difference })

/-- The function `kaizen_frame_time_difference` of the mach backend. -/
def kaizen_frame_time_difference (_ndebug : Bool)
    (one two : kaizen_raw_frame_time_s) :
    Option (kaizen_return_code × kaizen_raw_frame_time_s) :=
  let one_interval := one.interval
  let two_interval := two.interval
  let elapsed :=
    if one_interval ≥ two_interval then uint64_sub one_interval two_interval
    else uint64_sub two_interval one_interval
  some (KAIZEN_SUCCESS, { interval := elapsed })

/-- The function `kaizen_frame_time_aggregate` of the mach backend. -/
def kaizen_frame_time_aggregate (ndebug : Bool)
    (lhs rhs : kaizen_raw_frame_time_s) :
    Option (kaizen_return_code × kaizen_raw_frame_time_s) := do
  let left_interval := lhs.interval
  let right_interval := rhs.interval
  let aggregate := uint64_add left_interval right_interval
  c_assert ndebug
    (some (decide (aggregate ≥ left_interval) && decide (aggregate ≥ right_interval)))
  pure (KAIZEN_SUCCESS, { interval := aggregate })

end Mach

/-! ## Backend POSIX `clock_gettime`

The source file carries two `#error` directives ("Not tested yet", "Untested
functionality"); the embedding takes the function bodies as they are written. -/

namespace Posix

/-- The constant `KAIZEN_INTERNAL_ONE_SECOND_IN_NANOSECONDS`. -/
def KAIZEN_INTERNAL_ONE_SECOND_IN_NANOSECONDS : Int := 1000000000

/-- The `struct timespec` of `<time.h>`: `time_t tv_sec` and `long tv_nsec`. -/
structure timespec where
  tv_sec : Int
  tv_nsec : Int
deriving DecidableEq, Repr

/-- The `struct kaizen_raw_frame_time_s` under `KAIZEN_USE_POSIX_CLOCK_GETTIME`:
one `timespec time`. -/
structure kaizen_raw_frame_time_s where
  time : timespec
deriving DecidableEq, Repr

/-- The function `kaizen_internal_timespec_is_valid`. -/
def kaizen_internal_timespec_is_valid (time : timespec) : kaizen_bool :=
  decide (time.tv_sec ≥ 0)
    && decide (time.tv_nsec < KAIZEN_INTERNAL_ONE_SECOND_IN_NANOSECONDS)
    && decide (time.tv_nsec > 0)

/-- The function `kaizen_frame_time_equal` of the posix backend. -/
def kaizen_frame_time_equal (ndebug : Bool) (lhs rhs : kaizen_raw_frame_time_s) :
    Option kaizen_bool := do
  c_assert ndebug (some (kaizen_internal_timespec_is_valid lhs.time))
  c_assert ndebug (some (kaizen_internal_timespec_is_valid rhs.time))
  pure (decide (rhs.time.tv_sec = lhs.time.tv_sec)
    && decide (rhs.time.tv_nsec = lhs.time.tv_nsec))

/-- The function `kaizen_frame_time_unequal` of the posix backend. -/
def kaizen_frame_time_unequal (ndebug : Bool) (lhs rhs : kaizen_raw_frame_time_s) :
    Option kaizen_bool := do
  c_assert ndebug (some (kaizen_internal_timespec_is_valid lhs.time))
  c_assert ndebug (some (kaizen_internal_timespec_is_valid rhs.time))
  pure (decide (rhs.time.tv_sec ≠ lhs.time.tv_sec)
    && decide (rhs.time.tv_nsec ≠ lhs.time.tv_nsec))

/-- The function `kaizen_frame_time_greater` of the posix backend. -/
def kaizen_frame_time_greater (ndebug : Bool) (lhs rhs : kaizen_raw_frame_time_s) :
    Option kaizen_bool := do
  c_assert ndebug (some (kaizen_internal_timespec_is_valid lhs.time))
  c_assert ndebug (some (kaizen_internal_timespec_is_valid rhs.time))
  pure (decide (rhs.time.tv_sec > lhs.time.tv_sec)
    || (decide (rhs.time.tv_sec = lhs.time.tv_sec)
      && decide (rhs.time.tv_nsec > lhs.time.tv_nsec)))

/-- The function `kaizen_frame_time_greater_or_equal` of the posix backend. -/
def kaizen_frame_time_greater_or_equal (ndebug : Bool)
    (lhs rhs : kaizen_raw_frame_time_s) : Option kaizen_bool := do
  c_assert ndebug (some (kaizen_internal_timespec_is_valid lhs.time))
  c_assert ndebug (some (kaizen_internal_timespec_is_valid rhs.time))
  pure (decide (rhs.time.tv_sec ≥ lhs.time.tv_sec)
    || (decide (rhs.time.tv_sec = lhs.time.tv_sec)
      && decide (rhs.time.tv_nsec ≥ lhs.time.tv_nsec)))

/-- The function `kaizen_frame_time_lesser` of the posix backend. -/
def kaizen_frame_time_lesser (ndebug : Bool) (lhs rhs : kaizen_raw_frame_time_s) :
    Option kaizen_bool := do
  c_assert ndebug (some (kaizen_internal_timespec_is_valid lhs.time))
  c_assert ndebug (some (kaizen_internal_timespec_is_valid rhs.time))
  pure (decide (rhs.time.tv_sec < lhs.time.tv_sec)
    || (decide (rhs.time.tv_sec = lhs.time.tv_sec)
      && decide (rhs.time.tv_nsec < lhs.time.tv_nsec)))

/-- The function `kaizen_frame_time_lesser_or_equal` of the posix backend. -/
def kaizen_frame_time_lesser_or_equal (ndebug : Bool)
    (lhs rhs : kaizen_raw_frame_time_s) : Option kaizen_bool := do
  c_assert ndebug (some (kaizen_internal_timespec_is_valid lhs.time))
  c_assert ndebug (some (kaizen_internal_timespec_is_valid rhs.time))
  pure (decide (rhs.time.tv_sec ≤ lhs.time.tv_sec)
    || (decide (rhs.time.tv_sec = lhs.time.tv_sec)
      && decide (rhs.time.tv_nsec ≤ lhs.time.tv_nsec)))

/-- The function `kaizen_frame_time_subtract` of the posix backend. The first
assertion evaluates `kaizen_frame_time_greater_or_equal`, whose own assertions may
abort. -/
def kaizen_frame_time_subtract (ndebug : Bool)
    (later earlier : kaizen_raw_frame_time_s) :
    Option (kaizen_return_code × kaizen_raw_frame_time_s) := do
  c_assert ndebug
    ((kaizen_frame_time_greater_or_equal ndebug later earlier).map
      (fun ge => KAIZEN_TRUE == ge))
  c_assert ndebug (some (kaizen_internal_timespec_is_valid later.time))
  c_assert ndebug (some (kaizen_internal_timespec_is_valid earlier.time))
  let later_time := later.time
  let earlier_time := earlier.time
  let difference_tv_sec := int64_wrap (later_time.tv_sec - earlier_time.tv_sec)
  let difference_tv_nsec := int64_wrap (later_time.tv_nsec - earlier_time.tv_nsec)
  let difference : timespec :=
    { tv_sec := difference_tv_sec, tv_nsec := difference_tv_nsec }
  pure (KAIZEN_SUCCESS, { time := difference })

/-- The function `kaizen_frame_time_difference` of the posix backend. -/
def kaizen_frame_time_difference (ndebug : Bool)
    (one two : kaizen_raw_frame_time_s) :
    Option (kaizen_return_code × kaizen_raw_frame_time_s) := do
  c_assert ndebug (some (kaizen_internal_timespec_is_valid one.time))
  c_assert ndebug (some (kaizen_internal_timespec_is_valid two.time))
  let ge ← kaizen_frame_time_greater_or_equal ndebug one two
  if KAIZEN_TRUE == ge then
    kaizen_frame_time_subtract ndebug one two
  else
    kaizen_frame_time_subtract ndebug two one

/-- The function `kaizen_frame_time_aggregate` of the posix backend. The source
declares `long nssec_aggregate` and then reads and writes `nsec_aggregate`; the two
spellings are taken as the one variable they are meant to be. The overflow assertion
passes the addresses of the `timespec` values to the comparison, which reads them as
frame times (the struct has the `timespec` as its only member); `&&` evaluates its
right operand only when the left one is true. -/
def kaizen_frame_time_aggregate (ndebug : Bool)
    (lhs rhs : kaizen_raw_frame_time_s) :
    Option (kaizen_return_code × kaizen_raw_frame_time_s) := do
  c_assert ndebug (some (kaizen_internal_timespec_is_valid lhs.time))
  c_assert ndebug (some (kaizen_internal_timespec_is_valid rhs.time))
  let left_time := lhs.time
  let right_time := rhs.time
  let sec_aggregate := int64_wrap (left_time.tv_sec + right_time.tv_sec)
  let nsec_aggregate := int64_wrap (left_time.tv_nsec + right_time.tv_nsec)
  let carry := decide (nsec_aggregate ≥ KAIZEN_INTERNAL_ONE_SECOND_IN_NANOSECONDS)
  let sec_aggregate := if carry then int64_wrap (sec_aggregate + 1) else sec_aggregate
  let nsec_aggregate :=
    if carry then int64_wrap (nsec_aggregate - KAIZEN_INTERNAL_ONE_SECOND_IN_NANOSECONDS)
    else nsec_aggregate
  let aggregate : timespec := { tv_sec := sec_aggregate, tv_nsec := nsec_aggregate }
  c_assert ndebug (do
    let ge_left ← kaizen_frame_time_greater_or_equal ndebug
      { time := aggregate } { time := left_time }
    if ge_left then
      kaizen_frame_time_greater_or_equal ndebug { time := aggregate } { time := right_time }
    else
      pure false)
  pure (KAIZEN_SUCCESS, { time := aggregate })

/-- The documented data model of a clock-pair value: seconds are non-negative (and
fit a signed 64-bit `time_t`), nanoseconds lie in `[0, 1_000_000_000)`. -/
def well_formed (t : kaizen_raw_frame_time_s) : Prop :=
  0 ≤ t.time.tv_sec ∧ t.time.tv_sec < 2 ^ 63 ∧
    0 ≤ t.time.tv_nsec ∧ t.time.tv_nsec < 1000000000

instance (t : kaizen_raw_frame_time_s) : Decidable (well_formed t) := by
  unfold well_formed; infer_instance

/-- Lexicographic order on clock-pair values: seconds first, then nanoseconds. -/
def lex_lt (x y : kaizen_raw_frame_time_s) : Prop :=
  x.time.tv_sec < y.time.tv_sec ∨
    (x.time.tv_sec = y.time.tv_sec ∧ x.time.tv_nsec < y.time.tv_nsec)

instance (x y : kaizen_raw_frame_time_s) : Decidable (lex_lt x y) := by
  unfold lex_lt; infer_instance

/-- Lexicographic `≤` on clock-pair values. -/
def lex_le (x y : kaizen_raw_frame_time_s) : Prop :=
  x.time.tv_sec < y.time.tv_sec ∨
    (x.time.tv_sec = y.time.tv_sec ∧ x.time.tv_nsec ≤ y.time.tv_nsec)

instance (x y : kaizen_raw_frame_time_s) : Decidable (lex_le x y) := by
  unfold lex_le; infer_instance

end Posix

/-! ## Resolution, support and conversion queries -/

/-- The `enum kaizen_frame_time_resolution` of `kaizen_raw_frame_time.h`. -/
inductive kaizen_frame_time_resolution_t where
  | kaizen_unknown_frame_time_resolution
  | kaizen_nanoseconds_frame_time_resolution
  | kaizen_microseconds_frame_time_resolution
  | kaizen_milliseconds_frame_time_resolution
  | kaizen_seconds_frame_time_resolution
deriving DecidableEq, Repr

export kaizen_frame_time_resolution_t (kaizen_unknown_frame_time_resolution
  kaizen_nanoseconds_frame_time_resolution kaizen_microseconds_frame_time_resolution
  kaizen_milliseconds_frame_time_resolution kaizen_seconds_frame_time_resolution)

/-- Multiplication of two `uint64_t` values: the product modulo `2 ^ 64`. -/
def uint64_mul (a b : Nat) : Nat := (a * b) % 2 ^ 64

/-- Exactly one of three truth values is true. -/
def exactly_one (a b c : Bool) : Bool :=
  (a && !b && !c) || (!a && b && !c) || (!a && !b && c)

namespace Mach

/-- The macro `KAIZEN_RAW_FRAME_TIME_ZERO` under `KAIZEN_USE_APPLE_MACH_ABSOLUTE_TIME`:
the initialiser `{0}`. -/
def KAIZEN_RAW_FRAME_TIME_ZERO : kaizen_raw_frame_time_s := { interval := 0 }

/-- The function `kaizen_frame_time_equal` of the mach backend. -/
def kaizen_frame_time_equal (_ndebug : Bool) (lhs rhs : kaizen_raw_frame_time_s) :
    Option kaizen_bool :=
  some (decide (lhs.interval = rhs.interval))

/-- The function `kaizen_frame_time_unequal` of the mach backend. -/
def kaizen_frame_time_unequal (_ndebug : Bool) (lhs rhs : kaizen_raw_frame_time_s) :
    Option kaizen_bool :=
  some (decide (lhs.interval ≠ rhs.interval))

/-- The function `kaizen_frame_time_greater` of the mach backend. -/
def kaizen_frame_time_greater (_ndebug : Bool) (lhs rhs : kaizen_raw_frame_time_s) :
    Option kaizen_bool :=
  some (decide (lhs.interval > rhs.interval))

/-- The function `kaizen_frame_time_greater_or_equal` of the mach backend. -/
def kaizen_frame_time_greater_or_equal (_ndebug : Bool)
    (lhs rhs : kaizen_raw_frame_time_s) : Option kaizen_bool :=
  some (decide (lhs.interval ≥ rhs.interval))

/-- The function `kaizen_frame_time_lesser` of the mach backend. -/
def kaizen_frame_time_lesser (_ndebug : Bool) (lhs rhs : kaizen_raw_frame_time_s) :
    Option kaizen_bool :=
  some (decide (lhs.interval < rhs.interval))

/-- The function `kaizen_frame_time_lesser_or_equal` of the mach backend. -/
def kaizen_frame_time_lesser_or_equal (_ndebug : Bool)
    (lhs rhs : kaizen_raw_frame_time_s) : Option kaizen_bool :=
  some (decide (lhs.interval ≤ rhs.interval))

/-- The type `mach_timebase_info_data_t` of `<mach/mach_time.h>`: two `uint32_t`
fields, the numerator and the denominator of the tick-to-nanosecond ratio. -/
structure mach_timebase_info_data_t where
  numer : Nat
  denom : Nat
deriving DecidableEq, Repr

/-- The constant `KERN_SUCCESS` of `<mach/kern_return.h>`. -/
def KERN_SUCCESS : Int := 0

/-- The function `kaizen_internal_frame_time_convert_to_nanoseconds_uint64`. The call
of `mach_timebase_info` is given by what it returned (`errc`) and what it stored
(`timebase`); `result` is the value the output held before the call, which the failure
path leaves in place. The division is the truncating `uint64_t` division; the source
does not guard a zero denominator, on which the division traps and the process dies, in
either build. -/
def kaizen_internal_frame_time_convert_to_nanoseconds_uint64 (_ndebug : Bool)
    (errc : Int) (timebase : mach_timebase_info_data_t)
    (time : kaizen_raw_frame_time_s) (result : Nat) :
    Option (kaizen_return_code × Nat) :=
  if KERN_SUCCESS = errc then
    let elapsed := time.interval
    if timebase.denom % 2 ^ 64 = 0 then
      none
    else
      some (KAIZEN_SUCCESS,
        uint64_mul elapsed (timebase.numer % 2 ^ 64) / (timebase.denom % 2 ^ 64))
  else
    some (EAGAIN, result)

/-- The function `kaizen_frame_time_is_supported` of the mach backend, on the response
of `mach_timebase_info`. -/
def kaizen_frame_time_is_supported (_ndebug : Bool)
    (errc : Int) (_timebase : mach_timebase_info_data_t) : Option kaizen_bool :=
  some (if KERN_SUCCESS = errc then KAIZEN_TRUE else KAIZEN_FALSE)

/-- The function `kaizen_frame_time_query_resolution` of the mach backend; `_resolution`
is the value the output held before the call. -/
def kaizen_frame_time_query_resolution (_ndebug : Bool)
    (_resolution : kaizen_frame_time_resolution_t) :
    Option (kaizen_return_code × kaizen_frame_time_resolution_t) :=
  some (KAIZEN_SUCCESS, kaizen_nanoseconds_frame_time_resolution)

end Mach

namespace Posix

/-- The macro `KAIZEN_RAW_FRAME_TIME_ZERO` under `KAIZEN_USE_POSIX_CLOCK_GETTIME`:
the initialiser `{(time_t)0, (long)0}`. -/
def KAIZEN_RAW_FRAME_TIME_ZERO : kaizen_raw_frame_time_s :=
  { time := { tv_sec := 0, tv_nsec := 0 } }

/-- The function `kaizen_frame_time_is_supported` of the posix backend. The call of
`clock_getres` is given by what it returned (`error_indicator`) and what the `timespec`
holds after it (`time`); the validity of `time` is asserted before the error indicator
is looked at. -/
def kaizen_frame_time_is_supported (ndebug : Bool)
    (error_indicator : Int) (time : timespec) : Option kaizen_bool := do
  c_assert ndebug (some (kaizen_internal_timespec_is_valid time))
  pure (if 0 ≠ error_indicator then KAIZEN_FALSE else KAIZEN_TRUE)

/-- The function `kaizen_frame_time_query_resolution` of the posix backend. The call of
`clock_getres` is given by `error_indicator` and `res` as in
`kaizen_frame_time_is_supported`; `resolution` is the value the output held before the
call, which the failure path does not overwrite. -/
def kaizen_frame_time_query_resolution (ndebug : Bool)
    (error_indicator : Int) (res : timespec)
    (resolution : kaizen_frame_time_resolution_t) :
    Option (kaizen_return_code × kaizen_frame_time_resolution_t) := do
  c_assert ndebug (some (KAIZEN_TRUE == kaizen_internal_timespec_is_valid res))
  let sec_res := int64_wrap res.tv_sec
  let nanosec_res := res.tv_nsec
  if 0 = error_indicator then
    let result :=
      if sec_res > 0 then kaizen_seconds_frame_time_resolution
      else if nanosec_res ≥ 1000000 then kaizen_milliseconds_frame_time_resolution
      else if nanosec_res ≥ 1000 then kaizen_microseconds_frame_time_resolution
      else if nanosec_res > 0 then kaizen_nanoseconds_frame_time_resolution
      else kaizen_unknown_frame_time_resolution
    pure (KAIZEN_SUCCESS, result)
  else
    c_assert ndebug (some false)
    pure (ENOSYS, resolution)

end Posix

/-! ## Backend Win32 `QueryPerformanceCounter` -/

namespace Win32

/-- The constant `FALSE` of `<windows.h>`. -/
def FALSE : Int := 0

/-- The function `kaizen_frame_time_is_supported` of the win32 backend. The call of
`QueryPerformanceFrequency` is given by the `BOOL` it returned (`errc`) and the
`QuadPart` the argument holds after it (`_dummy`). -/
def kaizen_frame_time_is_supported (_ndebug : Bool)
    (errc : Int) (_dummy : Int) : Option kaizen_bool :=
  some (if FALSE ≠ errc then KAIZEN_TRUE else KAIZEN_FALSE)

/-- The function `kaizen_frame_time_query_resolution` of the win32 backend. The call of
`QueryPerformanceFrequency` is given by `errc` and `frequency` as in
`kaizen_frame_time_is_supported`; `_resolution` is the value the output held before the
call. -/
def kaizen_frame_time_query_resolution (_ndebug : Bool)
    (errc : Int) (frequency : Int) (_resolution : kaizen_frame_time_resolution_t) :
    Option (kaizen_return_code × kaizen_frame_time_resolution_t) :=
  if FALSE ≠ errc then
    let freq := frequency
    let written :=
      if 1000 > freq then kaizen_seconds_frame_time_resolution
      else if 1000000 > freq then kaizen_milliseconds_frame_time_resolution
      else if 1000000000 > freq then kaizen_microseconds_frame_time_resolution
      else kaizen_nanoseconds_frame_time_resolution
    some (KAIZEN_SUCCESS, written)
  else
    some (ENOSYS, kaizen_unknown_frame_time_resolution)

end Win32

/-! ## Sampling, monotonicity flag, conversions to time units

The conversions return a `double`; the embedding reads the `double` operations as exact
rational arithmetic. -/

namespace Mach

/-- The function `kaizen_frame_time_is_monotonic` of the mach backend. -/
def kaizen_frame_time_is_monotonic (_ndebug : Bool) : Option kaizen_bool :=
  some KAIZEN_TRUE

end Mach

namespace Posix

/-- The function `kaizen_frame_time_is_monotonic` of the posix backend. -/
def kaizen_frame_time_is_monotonic (_ndebug : Bool) : Option kaizen_bool :=
  some KAIZEN_FALSE

/-- The function `kaizen_frame_time_query` of the posix backend. The call of
`clock_gettime` is given by what it returned (`error_indicator`) and what the local
`timespec` holds after it (`time`); `now` is the value the output held before the call,
which the failure path leaves in place. -/
def kaizen_frame_time_query (ndebug : Bool)
    (error_indicator : Int) (time : timespec) (now : kaizen_raw_frame_time_s) :
    Option (kaizen_return_code × kaizen_raw_frame_time_s) := do
  c_assert ndebug (some (kaizen_internal_timespec_is_valid time))
  if 0 = error_indicator then
    pure (KAIZEN_SUCCESS, { time := time })
  else
    c_assert ndebug (some false)
    pure (ENOSYS, now)

/-- The function `kaizen_frame_time_convert_to_nanoseconds` of the posix backend. The
source reads `time->tv_sec` and `time->tv_nsec`, members the frame-time struct does not
have; they are taken as `time->time.tv_sec` and `time->time.tv_nsec`. -/
def kaizen_frame_time_convert_to_nanoseconds (ndebug : Bool)
    (time : kaizen_raw_frame_time_s) : Option (kaizen_return_code × ℚ) := do
  c_assert ndebug (some (kaizen_internal_timespec_is_valid time.time))
  pure (KAIZEN_SUCCESS, 1000000000 * (time.time.tv_sec : ℚ) + (time.time.tv_nsec : ℚ))

/-- The function `kaizen_frame_time_convert_to_microseconds` of the posix backend. -/
def kaizen_frame_time_convert_to_microseconds (ndebug : Bool)
    (time : kaizen_raw_frame_time_s) : Option (kaizen_return_code × ℚ) := do
  c_assert ndebug (some (kaizen_internal_timespec_is_valid time.time))
  pure (KAIZEN_SUCCESS, 1000000 * (time.time.tv_sec : ℚ) + (time.time.tv_nsec : ℚ) / 1000)

/-- The function `kaizen_frame_time_convert_to_milliseconds` of the posix backend. -/
def kaizen_frame_time_convert_to_milliseconds (ndebug : Bool)
    (time : kaizen_raw_frame_time_s) : Option (kaizen_return_code × ℚ) := do
  c_assert ndebug (some (kaizen_internal_timespec_is_valid time.time))
  pure (KAIZEN_SUCCESS, 1000 * (time.time.tv_sec : ℚ) + (time.time.tv_nsec : ℚ) / 1000000)

/-- The function `kaizen_frame_time_convert_to_seconds` of the posix backend. -/
def kaizen_frame_time_convert_to_seconds (ndebug : Bool)
    (time : kaizen_raw_frame_time_s) : Option (kaizen_return_code × ℚ) := do
  c_assert ndebug (some (kaizen_internal_timespec_is_valid time.time))
  pure (KAIZEN_SUCCESS, (time.time.tv_sec : ℚ) + (time.time.tv_nsec : ℚ) / 1000000000)

end Posix

namespace Win32

/-- The constant `TRUE` of `<windows.h>`. -/
def TRUE : Int := 1

/-- The `struct kaizen_raw_frame_time_s` under
`KAIZEN_USE_WIN32_QUERY_PERFORMANCE_COUNTER`: one `LARGE_INTEGER counter`, of which the
code uses the signed 64-bit `QuadPart`. -/
structure kaizen_raw_frame_time_s where
  counter : Int
deriving DecidableEq, Repr

/-- The function `kaizen_frame_time_is_monotonic` of the win32 backend. -/
def kaizen_frame_time_is_monotonic (_ndebug : Bool) : Option kaizen_bool :=
  some KAIZEN_TRUE

/-- The function `kaizen_frame_time_query` of the win32 backend. The call of
`QueryPerformanceCounter` is given by the `BOOL` it returned (`errc`) and the `QuadPart`
the local `counter` holds after it; `now` is the value the output held before the call.
The failure path asserts `TRUE`. -/
def kaizen_frame_time_query (ndebug : Bool)
    (errc : Int) (counter : Int) (now : kaizen_raw_frame_time_s) :
    Option (kaizen_return_code × kaizen_raw_frame_time_s) := do
  if FALSE ≠ errc then
    pure (KAIZEN_SUCCESS, { counter := counter })
  else
    c_assert ndebug (some (decide (TRUE ≠ 0)))
    pure (ENOSYS, now)

/-- The function `kaizen_frame_time_subtract` of the win32 backend. -/
def kaizen_frame_time_subtract (ndebug : Bool)
    (later earlier : kaizen_raw_frame_time_s) :
    Option (kaizen_return_code × kaizen_raw_frame_time_s) := do
  c_assert ndebug (some (decide (later.counter ≥ 0)))
  c_assert ndebug (some (decide (earlier.counter ≥ 0)))
  c_assert ndebug (some (decide (later.counter ≥ earlier.counter)))
  let later_counter := later.counter
  let earlier_counter := earlier.counter
  let difference := int64_wrap (later_counter - earlier_counter)
  pure (KAIZEN_SUCCESS, { counter := difference })

/-- The function `kaizen_frame_time_aggregate` of the win32 backend; the `LONGLONG`
addition wraps modulo `2 ^ 64`. -/
def kaizen_frame_time_aggregate (ndebug : Bool)
    (lhs rhs : kaizen_raw_frame_time_s) :
    Option (kaizen_return_code × kaizen_raw_frame_time_s) := do
  c_assert ndebug (some (decide (lhs.counter ≥ 0)))
  c_assert ndebug (some (decide (rhs.counter ≥ 0)))
  let left_counter := lhs.counter
  let right_counter := rhs.counter
  let aggregate := int64_wrap (left_counter + right_counter)
  c_assert ndebug
    (some (decide (aggregate ≥ left_counter) && decide (aggregate ≥ right_counter)))
  pure (KAIZEN_SUCCESS, { counter := aggregate })

/-- The function `kaizen_internal_frame_time_convert_with_factor` of the win32 backend.
The call of `QueryPerformanceFrequency` is given by `errc` and `frequency`; `result` is
the value the output held before the call, which the failure path leaves in place. The
quotient is taken in the rationals (where a zero frequency gives zero). -/
def kaizen_internal_frame_time_convert_with_factor (ndebug : Bool)
    (errc : Int) (frequency : Int) (time : kaizen_raw_frame_time_s) (factor : ℚ)
    (result : ℚ) : Option (kaizen_return_code × ℚ) := do
  c_assert ndebug (some (decide (time.counter ≥ 0)))
  if FALSE ≠ errc then
    let freq := frequency
    let elapsed := time.counter
    let secs := factor * (elapsed : ℚ) / (freq : ℚ)
    pure (KAIZEN_SUCCESS, secs)
  else
    c_assert ndebug (some false)
    pure (ENOSYS, result)

/-- The function `kaizen_frame_time_convert_to_nanoseconds` of the win32 backend. -/
def kaizen_frame_time_convert_to_nanoseconds (ndebug : Bool)
    (errc : Int) (frequency : Int) (time : kaizen_raw_frame_time_s) (result : ℚ) :
    Option (kaizen_return_code × ℚ) :=
  kaizen_internal_frame_time_convert_with_factor ndebug errc frequency time 1000000000
    result

/-! ### Reliability scope (`kaizen_raw_reliable_frame_time_scope_win32.c`) -/

/-- The `struct kaizen_raw_reliable_frame_time_scope_s` under
`KAIZEN_USE_WIN32_QUERY_PERFORMANCE_COUNTER`: one `DWORD_PTR`. -/
structure kaizen_raw_reliable_frame_time_scope_s where
  last_thread_affinity_mask : Nat
deriving DecidableEq, Repr

/-- The state of the calling thread that the scope functions act on: its processor
affinity mask. -/
structure thread_state where
  affinity_mask : Nat
deriving DecidableEq, Repr

/-- The Win32 call `SetThreadAffinityMask` as documented by the platform: when the
system accepts the request (`accepted`) the thread gets the new mask and the call
returns the previous one; otherwise the mask stays and the call returns zero. -/
def SetThreadAffinityMask (accepted : Bool) (thread : thread_state) (mask : Nat) :
    Nat × thread_state :=
  if accepted then (thread.affinity_mask, { affinity_mask := mask }) else (0, thread)

/-- The constant `ERROR_INVALID_PARAMETER` of `<winerror.h>`. -/
def ERROR_INVALID_PARAMETER : Nat := 87

/-- The function `kaizen_reliable_frame_time_scope_init`. The platform is given by the
value `SetThreadIdealProcessor` returned (`ideal_processor`, a `DWORD`), by whether the
system accepts the affinity request (`accepted`) and by what `GetLastError` reports
(`last_error`); `thread` is the state of the calling thread. `(DWORD)-1` is
`4294967295`; the shift `1 << ideal_processor` is taken in 64 bits and gives zero for 64
and more (where C leaves it undefined). -/
def kaizen_reliable_frame_time_scope_init (ndebug : Bool)
    (ideal_processor : Nat) (accepted : Bool) (last_error : Nat)
    (thread : thread_state) (scope : kaizen_raw_reliable_frame_time_scope_s) :
    Option (kaizen_return_code × kaizen_raw_reliable_frame_time_scope_s × thread_state) := do
  if 4294967295 = ideal_processor then
    c_assert ndebug (some (decide (4294967295 ≠ ideal_processor)))
  let ideal_processor_affinity_mask :=
    if ideal_processor < 64 then 2 ^ ideal_processor else 0
  let (last_mask, thread) :=
    SetThreadAffinityMask accepted thread ideal_processor_affinity_mask
  if 0 ≠ last_mask then
    pure (KAIZEN_SUCCESS, { last_thread_affinity_mask := last_mask }, thread)
  else
    c_assert ndebug (some (decide (ERROR_INVALID_PARAMETER ≠ last_error)))
    pure (EAGAIN, scope, thread)

/-- The function `kaizen_reliable_frame_time_scope_finalize`, on the same platform
responses as `kaizen_reliable_frame_time_scope_init`. -/
def kaizen_reliable_frame_time_scope_finalize (ndebug : Bool)
    (accepted : Bool) (last_error : Nat)
    (thread : thread_state) (scope : kaizen_raw_reliable_frame_time_scope_s) :
    Option (kaizen_return_code × thread_state) := do
  let (last_mask, thread) :=
    SetThreadAffinityMask accepted thread scope.last_thread_affinity_mask
  if 0 ≠ last_mask then
    pure (KAIZEN_SUCCESS, thread)
  else
    c_assert ndebug (some (decide (ERROR_INVALID_PARAMETER ≠ last_error)))
    pure (ESRCH, thread)

end Win32

/-! ## Conversions of the mach backend, win32 difference, enumeration values -/

/-- Left shift of a `uint64_t` value: the shifted value modulo `2 ^ 64`. -/
def uint64_shl (a k : Nat) : Nat := (a <<< k) % 2 ^ 64

/-- The integer value of an enumerator of `enum kaizen_frame_time_resolution`:
`kaizen_unknown_frame_time_resolution = 0` and each following enumerator one more, in
the order of the declaration. -/
def kaizen_frame_time_resolution_t.value : kaizen_frame_time_resolution_t → Nat
  | kaizen_unknown_frame_time_resolution => 0
  | kaizen_nanoseconds_frame_time_resolution => 1
  | kaizen_microseconds_frame_time_resolution => 2
  | kaizen_milliseconds_frame_time_resolution => 3
  | kaizen_seconds_frame_time_resolution => 4

namespace Mach

/-- The constant `DBL_MANT_DIG` of `<float.h>` for an IEEE-754 `double`. -/
def DBL_MANT_DIG : Nat := 53

/-- The expression of the precision assertion of
`kaizen_internal_frame_time_convert_with_factor`,
`0 == (intermediate_result & ((uint64_t)(-1)) << DBL_MANT_DIG)`; `<<` binds tighter than
`&`, and `(uint64_t)(-1)` is `2 ^ 64 - 1`. -/
def precision_assertion_expression (intermediate_result : Nat) : Bool :=
  decide (0 = intermediate_result &&& uint64_shl (2 ^ 64 - 1) DBL_MANT_DIG)

/-- The function `kaizen_internal_frame_time_convert_with_factor` of the mach backend.
The call of `mach_timebase_info` made by the integer conversion is given by
`timebase_errc` and `timebase`; `result` is the value the output held before the call,
which is left in place unless the integer conversion succeeds. -/
def kaizen_internal_frame_time_convert_with_factor (ndebug : Bool)
    (timebase_errc : Int) (timebase : mach_timebase_info_data_t)
    (time : kaizen_raw_frame_time_s) (conversion_factor : ℚ) (result : ℚ) :
    Option (kaizen_return_code × ℚ) := do
  let intermediate_result := 0
  let (errc, intermediate_result) ←
    kaizen_internal_frame_time_convert_to_nanoseconds_uint64 ndebug timebase_errc timebase
      time intermediate_result
  if KAIZEN_SUCCESS = errc then
    c_assert ndebug (some (precision_assertion_expression intermediate_result))
    pure (errc, conversion_factor * (intermediate_result : ℚ))
  else
    pure (errc, result)

/-- The function `kaizen_frame_time_convert_to_nanoseconds` of the mach backend. -/
def kaizen_frame_time_convert_to_nanoseconds (ndebug : Bool)
    (timebase_errc : Int) (timebase : mach_timebase_info_data_t)
    (time : kaizen_raw_frame_time_s) (result : ℚ) : Option (kaizen_return_code × ℚ) :=
  kaizen_internal_frame_time_convert_with_factor ndebug timebase_errc timebase time 1 result

/-- The function `kaizen_frame_time_convert_to_microseconds` of the mach backend
(factor `1.0e-3`). -/
def kaizen_frame_time_convert_to_microseconds (ndebug : Bool)
    (timebase_errc : Int) (timebase : mach_timebase_info_data_t)
    (time : kaizen_raw_frame_time_s) (result : ℚ) : Option (kaizen_return_code × ℚ) :=
  kaizen_internal_frame_time_convert_with_factor ndebug timebase_errc timebase time
    (1 / 1000) result

/-- The function `kaizen_frame_time_convert_to_milliseconds` of the mach backend
(factor `1.0e-6`). -/
def kaizen_frame_time_convert_to_milliseconds (ndebug : Bool)
    (timebase_errc : Int) (timebase : mach_timebase_info_data_t)
    (time : kaizen_raw_frame_time_s) (result : ℚ) : Option (kaizen_return_code × ℚ) :=
  kaizen_internal_frame_time_convert_with_factor ndebug timebase_errc timebase time
    (1 / 1000000) result

/-- The function `kaizen_frame_time_convert_to_seconds` of the mach backend (factor
`1.0e-9`). -/
def kaizen_frame_time_convert_to_seconds (ndebug : Bool)
    (timebase_errc : Int) (timebase : mach_timebase_info_data_t)
    (time : kaizen_raw_frame_time_s) (result : ℚ) : Option (kaizen_return_code × ℚ) :=
  kaizen_internal_frame_time_convert_with_factor ndebug timebase_errc timebase time
    (1 / 1000000000) result

end Mach

namespace Win32

/-- The function `kaizen_frame_time_difference` of the win32 backend. -/
def kaizen_frame_time_difference (ndebug : Bool)
    (one two : kaizen_raw_frame_time_s) :
    Option (kaizen_return_code × kaizen_raw_frame_time_s) := do
  c_assert ndebug (some (decide (one.counter ≥ 0)))
  c_assert ndebug (some (decide (two.counter ≥ 0)))
  let one_counter := one.counter
  let two_counter := two.counter
  let elapsed :=
    if one_counter ≥ two_counter then int64_wrap (one_counter - two_counter)
    else int64_wrap (two_counter - one_counter)
  pure (KAIZEN_SUCCESS, { counter := elapsed })

end Win32

/-! ## Theorems: mach backend -/

/-- C1: in the mach backend, for tick values `a ≤ b` below `2 ^ 64`,
`kaizen_frame_time_subtract (b, a)` returns `KAIZEN_SUCCESS` with some value `d`, and
`kaizen_frame_time_aggregate (d, a)` returns `KAIZEN_SUCCESS` with exactly `b`; this
holds with assertions checked (`ndebug = false`) as well as without, so neither the
ordering assertion nor the overflow assertion fails. -/
theorem mach_aggregate_subtract_round_trip (ndebug : Bool)
    (a b : Mach.kaizen_raw_frame_time_s)
    (hab : a.interval ≤ b.interval) (hb : b.interval < 2 ^ 64) :
    ∃ d, Mach.kaizen_frame_time_subtract ndebug b a = some (KAIZEN_SUCCESS, d) ∧
      Mach.kaizen_frame_time_aggregate ndebug d a = some (KAIZEN_SUCCESS, b) := by
  have hsub : uint64_sub b.interval a.interval = b.interval - a.interval := by
    unfold uint64_sub; omega
  have hadd : uint64_add (b.interval - a.interval) a.interval = b.interval := by
    unfold uint64_add; omega
  refine ⟨{ interval := b.interval - a.interval }, ?_, ?_⟩
  · cases ndebug <;>
      simp [Mach.kaizen_frame_time_subtract, c_assert, hsub, hab]
  · cases ndebug <;>
      simp [Mach.kaizen_frame_time_aggregate, c_assert, hadd, hab]

/-- Witness of C1 at `a = 3`, `b = 10` in the debug build. -/
theorem mach_aggregate_subtract_round_trip_witness :
    ∃ d, Mach.kaizen_frame_time_subtract false { interval := 10 } { interval := 3 }
        = some (KAIZEN_SUCCESS, d) ∧
      Mach.kaizen_frame_time_aggregate false d { interval := 3 }
        = some (KAIZEN_SUCCESS, { interval := 10 }) :=
  mach_aggregate_subtract_round_trip false { interval := 3 } { interval := 10 }
    (by decide) (by norm_num)

/-- C3: in the mach backend, for tick values `x`, `y` below `2 ^ 64`,
`kaizen_frame_time_difference (x, y)` and `kaizen_frame_time_difference (y, x)` return
the same result, `KAIZEN_SUCCESS` with the absolute difference `|x - y|`. -/
theorem mach_difference_symmetric (ndebug : Bool)
    (x y : Mach.kaizen_raw_frame_time_s)
    (hx : x.interval < 2 ^ 64) (hy : y.interval < 2 ^ 64) :
    Mach.kaizen_frame_time_difference ndebug x y
        = Mach.kaizen_frame_time_difference ndebug y x ∧
      Mach.kaizen_frame_time_difference ndebug x y
        = some (KAIZEN_SUCCESS,
            { interval := ((x.interval : Int) - (y.interval : Int)).natAbs }) := by
  have key : ∀ a b : Nat, a < 2 ^ 64 → b < 2 ^ 64 →
      (if a ≥ b then uint64_sub a b else uint64_sub b a)
        = ((a : Int) - (b : Int)).natAbs := by
    intro a b ha hb
    unfold uint64_sub
    split <;> omega
  have hxy := key x.interval y.interval hx hy
  have hyx := key y.interval x.interval hy hx
  have habs : ((y.interval : Int) - (x.interval : Int)).natAbs
      = ((x.interval : Int) - (y.interval : Int)).natAbs := by omega
  simp only [Mach.kaizen_frame_time_difference, hxy, hyx, habs, and_self]

/-- Witness of C3 at `x = 3`, `y = 10`. -/
theorem mach_difference_symmetric_witness :
    Mach.kaizen_frame_time_difference false { interval := 3 } { interval := 10 }
        = Mach.kaizen_frame_time_difference false { interval := 10 } { interval := 3 } ∧
      Mach.kaizen_frame_time_difference false { interval := 3 } { interval := 10 }
        = some (KAIZEN_SUCCESS, { interval := ((3 : Int) - (10 : Int)).natAbs }) :=
  mach_difference_symmetric false { interval := 3 } { interval := 10 }
    (by norm_num) (by norm_num)

/-- C7: in the mach backend, for tick values `lhs`, `rhs` below `2 ^ 64`, the expression
of the overflow assertion of `kaizen_frame_time_aggregate` (wrapped sum `≥ lhs` and
wrapped sum `≥ rhs`) is true exactly when the exact sum is below `2 ^ 64`; with
assertions checked the function returns exactly in that case, and whatever it returns
is `KAIZEN_SUCCESS` with the exact sum. -/
theorem mach_aggregate_overflow_assertion (lhs rhs : Mach.kaizen_raw_frame_time_s)
    (hl : lhs.interval < 2 ^ 64) (hr : rhs.interval < 2 ^ 64) :
    ((uint64_add lhs.interval rhs.interval ≥ lhs.interval ∧
        uint64_add lhs.interval rhs.interval ≥ rhs.interval)
        ↔ lhs.interval + rhs.interval < 2 ^ 64) ∧
      ((Mach.kaizen_frame_time_aggregate false lhs rhs).isSome = true
        ↔ lhs.interval + rhs.interval < 2 ^ 64) ∧
      (∀ r, Mach.kaizen_frame_time_aggregate false lhs rhs = some r →
        r = (KAIZEN_SUCCESS, { interval := lhs.interval + rhs.interval })) := by
  have hexpr : (uint64_add lhs.interval rhs.interval ≥ lhs.interval ∧
      uint64_add lhs.interval rhs.interval ≥ rhs.interval)
      ↔ lhs.interval + rhs.interval < 2 ^ 64 := by
    unfold uint64_add
    constructor
    · intro h; omega
    · intro h; omega
  by_cases hsum : lhs.interval + rhs.interval < 2 ^ 64
  · have hadd : uint64_add lhs.interval rhs.interval = lhs.interval + rhs.interval := by
      unfold uint64_add; omega
    refine ⟨hexpr, ?_, ?_⟩
    · simp [Mach.kaizen_frame_time_aggregate, c_assert, hadd]
      omega
    · intro r hr'
      simp [Mach.kaizen_frame_time_aggregate, c_assert, hadd] at hr'
      exact hr'.symm
  · have hcond : (decide (uint64_add lhs.interval rhs.interval ≥ lhs.interval)
        && decide (uint64_add lhs.interval rhs.interval ≥ rhs.interval)) = false := by
      rw [Bool.and_eq_false_iff]
      unfold uint64_add
      by_cases h1 : (lhs.interval + rhs.interval) % 2 ^ 64 ≥ lhs.interval
      · right; simp; omega
      · left; simp; omega
    refine ⟨hexpr, ?_, ?_⟩
    · simp [Mach.kaizen_frame_time_aggregate, c_assert, hcond]
      omega
    · intro r hr'
      simp [Mach.kaizen_frame_time_aggregate, c_assert, hcond] at hr'

/-- Witness of C7 at `lhs = 2 ^ 64 - 1`, `rhs = 1`, where the exact sum is `2 ^ 64`. -/
theorem mach_aggregate_overflow_assertion_witness :
    ((uint64_add 18446744073709551615 1 ≥ 18446744073709551615 ∧
        uint64_add 18446744073709551615 1 ≥ 1)
        ↔ 18446744073709551615 + 1 < 2 ^ 64) ∧
      ((Mach.kaizen_frame_time_aggregate false
          { interval := 18446744073709551615 } { interval := 1 }).isSome = true
        ↔ 18446744073709551615 + 1 < 2 ^ 64) ∧
      (∀ r, Mach.kaizen_frame_time_aggregate false
          { interval := 18446744073709551615 } { interval := 1 } = some r →
        r = (KAIZEN_SUCCESS, { interval := 18446744073709551615 + 1 })) :=
  mach_aggregate_overflow_assertion { interval := 18446744073709551615 } { interval := 1 }
    (by norm_num) (by norm_num)

/-! ## Theorems: posix backend -/

/-- Signed 64-bit reduction leaves a value of the signed 64-bit range unchanged. -/
theorem int64_wrap_of_range (x : Int) (hlo : -(2 ^ 63) ≤ x) (hhi : x < 2 ^ 63) :
    int64_wrap x = x := by
  unfold int64_wrap
  omega

/-- With `NDEBUG` defined no assertion is evaluated. -/
theorem c_assert_ndebug (expression : Option Bool) :
    c_assert true expression = some () := rfl

/-- What the posix `kaizen_frame_time_greater_or_equal` computes once its assertions
are out of the way: the second disjunct is subsumed by the first, the result is
`lhs.tv_sec ≤ rhs.tv_sec`. -/
theorem posix_greater_or_equal_release (lhs rhs : Posix.kaizen_raw_frame_time_s) :
    Posix.kaizen_frame_time_greater_or_equal true lhs rhs
      = some (decide (lhs.time.tv_sec ≤ rhs.time.tv_sec)) := by
  simp only [Posix.kaizen_frame_time_greater_or_equal, c_assert_ndebug, Option.pure_def,
    Option.bind_eq_bind, Option.some_bind, Option.some.injEq]
  by_cases h : lhs.time.tv_sec ≤ rhs.time.tv_sec
  · simp [h]
  · have h2 : ¬ rhs.time.tv_sec = lhs.time.tv_sec := by omega
    simp [h, h2]

/-- What the posix `kaizen_frame_time_greater` computes once its assertions are out of
the way: whether `lhs` is lexicographically less than `rhs`. -/
theorem posix_greater_release (lhs rhs : Posix.kaizen_raw_frame_time_s) :
    Posix.kaizen_frame_time_greater true lhs rhs
      = some (decide (Posix.lex_lt lhs rhs)) := by
  simp only [Posix.kaizen_frame_time_greater, c_assert_ndebug, Option.pure_def,
    Option.bind_eq_bind, Option.some_bind, Option.some.injEq, Posix.lex_lt]
  rw [Bool.eq_iff_iff]
  simp only [Bool.or_eq_true, Bool.and_eq_true, decide_eq_true_eq, gt_iff_lt]
  constructor
  · rintro (h | ⟨h1, h2⟩)
    · exact Or.inl h
    · exact Or.inr ⟨h1.symm, h2⟩
  · rintro (h | ⟨h1, h2⟩)
    · exact Or.inl h
    · exact Or.inr ⟨h1.symm, h2⟩

/-- Release build of the posix backend: for well-formed `a ≤ b` (lexicographically) the
field arithmetic of subtract followed by aggregate gives back `b`. -/
theorem posix_release_round_trip (a b : Posix.kaizen_raw_frame_time_s)
    (ha : Posix.well_formed a) (hb : Posix.well_formed b) (hab : Posix.lex_le a b) :
    ∃ d, Posix.kaizen_frame_time_subtract true b a = some (KAIZEN_SUCCESS, d) ∧
      Posix.kaizen_frame_time_aggregate true d a = some (KAIZEN_SUCCESS, b) := by
  obtain ⟨⟨bs, bn⟩⟩ := b
  obtain ⟨⟨as, an⟩⟩ := a
  simp only [Posix.well_formed] at ha hb
  simp only [Posix.lex_le] at hab
  have h1 : int64_wrap (bs - as) = bs - as := int64_wrap_of_range _ (by omega) (by omega)
  have h2 : int64_wrap (bn - an) = bn - an := int64_wrap_of_range _ (by omega) (by omega)
  have h3 : int64_wrap bs = bs := int64_wrap_of_range _ (by omega) (by omega)
  have h4 : int64_wrap bn = bn := int64_wrap_of_range _ (by omega) (by omega)
  refine ⟨{ time := { tv_sec := bs - as, tv_nsec := bn - an } }, ?_, ?_⟩
  · simp [Posix.kaizen_frame_time_subtract, c_assert_ndebug, h1, h2]
  · simp [Posix.kaizen_frame_time_aggregate, c_assert_ndebug, h3, h4,
      Posix.KAIZEN_INTERNAL_ONE_SECOND_IN_NANOSECONDS]
    omega

/-- C2 (defect of the code): at the well-formed values `a = (1 s, 1 ns)` and
`b = (2 s, 2 ns)`, with `a ≤ b`, the debug build does not return `b`:
`kaizen_frame_time_greater_or_equal (b, a)` is false, so the ordering assertion of
`kaizen_frame_time_subtract (b, a)` aborts; at `a = (1 s, 1 ns)`, `b = (1 s, 2 ns)`
subtract returns and the overflow assertion of aggregate aborts. Only the release
build returns `b`. -/
theorem posix_round_trip_aborts_in_debug_build :
    Posix.well_formed ⟨⟨1, 1⟩⟩ ∧ Posix.well_formed ⟨⟨2, 2⟩⟩ ∧
      Posix.lex_le ⟨⟨1, 1⟩⟩ ⟨⟨2, 2⟩⟩ ∧
      Posix.kaizen_frame_time_greater_or_equal false ⟨⟨2, 2⟩⟩ ⟨⟨1, 1⟩⟩
        = some KAIZEN_FALSE ∧
      Posix.kaizen_frame_time_subtract false ⟨⟨2, 2⟩⟩ ⟨⟨1, 1⟩⟩ = none ∧
      Posix.kaizen_frame_time_subtract false ⟨⟨1, 2⟩⟩ ⟨⟨1, 1⟩⟩
        = some (KAIZEN_SUCCESS, ⟨⟨0, 1⟩⟩) ∧
      Posix.kaizen_frame_time_aggregate false ⟨⟨0, 1⟩⟩ ⟨⟨1, 1⟩⟩ = none ∧
      (Posix.kaizen_frame_time_subtract true ⟨⟨2, 2⟩⟩ ⟨⟨1, 1⟩⟩).bind
          (fun d => Posix.kaizen_frame_time_aggregate true d.2 ⟨⟨1, 1⟩⟩)
        = some (KAIZEN_SUCCESS, ⟨⟨2, 2⟩⟩) := by
  decide

/-- C4 (defect of the code): at the well-formed values `x = (0 s, 1 ns)` and
`y = (0 s, 2 ns)`, `kaizen_frame_time_difference (x, y)` stores `(0 s, -1 ns)` and
`kaizen_frame_time_difference (y, x)` stores `(0 s, 1 ns)`, in the debug build and in
the release build alike: the two orders give different results. -/
theorem posix_difference_not_symmetric :
    Posix.well_formed ⟨⟨0, 1⟩⟩ ∧ Posix.well_formed ⟨⟨0, 2⟩⟩ ∧
      Posix.kaizen_frame_time_difference false ⟨⟨0, 1⟩⟩ ⟨⟨0, 2⟩⟩
        = some (KAIZEN_SUCCESS, ⟨⟨0, -1⟩⟩) ∧
      Posix.kaizen_frame_time_difference false ⟨⟨0, 2⟩⟩ ⟨⟨0, 1⟩⟩
        = some (KAIZEN_SUCCESS, ⟨⟨0, 1⟩⟩) ∧
      Posix.kaizen_frame_time_difference true ⟨⟨0, 1⟩⟩ ⟨⟨0, 2⟩⟩
        = some (KAIZEN_SUCCESS, ⟨⟨0, -1⟩⟩) ∧
      Posix.kaizen_frame_time_difference true ⟨⟨0, 2⟩⟩ ⟨⟨0, 1⟩⟩
        = some (KAIZEN_SUCCESS, ⟨⟨0, 1⟩⟩) := by
  decide

/-- C5 (defect of the code): at the well-formed values `later = (2 s, 1 ns)` and
`earlier = (1 s, 2 ns)`, with `later ≥ earlier`, `kaizen_frame_time_subtract` takes no
borrow: the release build stores `(1 s, -1 ns)`, whose nanoseconds are negative, and
the debug build aborts at the ordering assertion. -/
theorem posix_subtract_takes_no_borrow :
    Posix.well_formed ⟨⟨2, 1⟩⟩ ∧ Posix.well_formed ⟨⟨1, 2⟩⟩ ∧
      Posix.lex_le ⟨⟨1, 2⟩⟩ ⟨⟨2, 1⟩⟩ ∧
      Posix.kaizen_frame_time_subtract true ⟨⟨2, 1⟩⟩ ⟨⟨1, 2⟩⟩
        = some (KAIZEN_SUCCESS, ⟨⟨1, -1⟩⟩) ∧
      ¬ Posix.well_formed ⟨⟨1, -1⟩⟩ ∧
      Posix.kaizen_frame_time_subtract false ⟨⟨2, 1⟩⟩ ⟨⟨1, 2⟩⟩ = none := by
  decide

/-- Release build of the posix backend: for well-formed operands whose seconds leave
room for the carry, the field arithmetic of `kaizen_frame_time_aggregate` returns a
value with nanoseconds in `[0, 1_000_000_000)` whose total is the sum of the operands'
totals, with a carry of one second exactly when the nanoseconds sum reaches
`1_000_000_000`. -/
theorem posix_release_aggregate_total (lhs rhs : Posix.kaizen_raw_frame_time_s)
    (hl : Posix.well_formed lhs) (hr : Posix.well_formed rhs)
    (hsum : lhs.time.tv_sec + rhs.time.tv_sec + 1 < 2 ^ 63) :
    ∃ r, Posix.kaizen_frame_time_aggregate true lhs rhs = some (KAIZEN_SUCCESS, r) ∧
      0 ≤ r.time.tv_nsec ∧ r.time.tv_nsec < 1000000000 ∧
      1000000000 * r.time.tv_sec + r.time.tv_nsec
        = (1000000000 * lhs.time.tv_sec + lhs.time.tv_nsec)
          + (1000000000 * rhs.time.tv_sec + rhs.time.tv_nsec) ∧
      (r.time.tv_sec = lhs.time.tv_sec + rhs.time.tv_sec + 1
        ↔ lhs.time.tv_nsec + rhs.time.tv_nsec ≥ 1000000000) ∧
      (r.time.tv_sec = lhs.time.tv_sec + rhs.time.tv_sec
        ↔ lhs.time.tv_nsec + rhs.time.tv_nsec < 1000000000) := by
  obtain ⟨⟨ls, ln⟩⟩ := lhs
  obtain ⟨⟨rs, rn⟩⟩ := rhs
  simp only [Posix.well_formed] at hl hr
  simp only at hsum
  have h1 : int64_wrap (ls + rs) = ls + rs := int64_wrap_of_range _ (by omega) (by omega)
  have h2 : int64_wrap (ln + rn) = ln + rn := int64_wrap_of_range _ (by omega) (by omega)
  have h3 : int64_wrap (ls + rs + 1) = ls + rs + 1 :=
    int64_wrap_of_range _ (by omega) (by omega)
  have h4 : int64_wrap (ln + rn - 1000000000) = ln + rn - 1000000000 :=
    int64_wrap_of_range _ (by omega) (by omega)
  by_cases hc : ln + rn ≥ 1000000000
  · refine ⟨{ time := { tv_sec := ls + rs + 1, tv_nsec := ln + rn - 1000000000 } },
      ?_, ?_⟩
    · simp [Posix.kaizen_frame_time_aggregate, c_assert_ndebug, h1, h2, h3, h4,
        Posix.KAIZEN_INTERNAL_ONE_SECOND_IN_NANOSECONDS, hc]
    · simp only
      clear h1 h2 h3 h4
      refine ⟨by omega, by omega, by omega, ?_, ?_⟩ <;> constructor <;> intro _ <;>
        first | trivial | omega
  · refine ⟨{ time := { tv_sec := ls + rs, tv_nsec := ln + rn } }, ?_, ?_⟩
    · simp [Posix.kaizen_frame_time_aggregate, c_assert_ndebug, h1, h2,
        Posix.KAIZEN_INTERNAL_ONE_SECOND_IN_NANOSECONDS, hc]
    · simp only
      clear h1 h2 h3 h4
      refine ⟨by omega, by omega, by omega, ?_, ?_⟩ <;> constructor <;> intro _ <;>
        first | trivial | omega

/-- C6 (defect of the code): at the well-formed operands `lhs = rhs = (0 s,
600_000_000 ns)` the nanoseconds sum reaches `1_000_000_000`; the release build stores
`(1 s, 200_000_000 ns)`, but the debug build returns nothing: after the carry the
overflow assertion, which asks `kaizen_frame_time_greater_or_equal (aggregate, lhs)`,
is false and aborts. The same happens without a carry at `lhs = rhs = (1 s, 1 ns)`. -/
theorem posix_aggregate_aborts_in_debug_build :
    Posix.well_formed ⟨⟨0, 600000000⟩⟩ ∧ Posix.well_formed ⟨⟨1, 1⟩⟩ ∧
      Posix.kaizen_frame_time_aggregate true ⟨⟨0, 600000000⟩⟩ ⟨⟨0, 600000000⟩⟩
        = some (KAIZEN_SUCCESS, ⟨⟨1, 200000000⟩⟩) ∧
      Posix.kaizen_frame_time_greater_or_equal false ⟨⟨1, 200000000⟩⟩ ⟨⟨0, 600000000⟩⟩
        = some KAIZEN_FALSE ∧
      Posix.kaizen_frame_time_aggregate false ⟨⟨0, 600000000⟩⟩ ⟨⟨0, 600000000⟩⟩ = none ∧
      Posix.kaizen_frame_time_aggregate true ⟨⟨1, 1⟩⟩ ⟨⟨1, 1⟩⟩
        = some (KAIZEN_SUCCESS, ⟨⟨2, 2⟩⟩) ∧
      Posix.kaizen_frame_time_aggregate false ⟨⟨1, 1⟩⟩ ⟨⟨1, 1⟩⟩ = none := by
  decide

/-- C8 (defect of the code): at `x = (2 s, 1 ns)`, `y = (1 s, 1 ns)`, where `x` is
lexicographically greater than `y`, `kaizen_frame_time_greater (x, y)` is false and
`kaizen_frame_time_lesser (x, y)` is true; with the operands exchanged
`kaizen_frame_time_greater (y, x)` is true and `kaizen_frame_time_lesser (y, x)` is
false. The two predicates compare `rhs` against `lhs`. -/
theorem posix_greater_lesser_operands_exchanged :
    Posix.lex_lt ⟨⟨1, 1⟩⟩ ⟨⟨2, 1⟩⟩ ∧
      Posix.kaizen_frame_time_greater false ⟨⟨2, 1⟩⟩ ⟨⟨1, 1⟩⟩ = some KAIZEN_FALSE ∧
      Posix.kaizen_frame_time_lesser false ⟨⟨2, 1⟩⟩ ⟨⟨1, 1⟩⟩ = some KAIZEN_TRUE ∧
      Posix.kaizen_frame_time_greater false ⟨⟨1, 1⟩⟩ ⟨⟨2, 1⟩⟩ = some KAIZEN_TRUE ∧
      Posix.kaizen_frame_time_lesser false ⟨⟨1, 1⟩⟩ ⟨⟨2, 1⟩⟩ = some KAIZEN_FALSE ∧
      Posix.kaizen_frame_time_greater true ⟨⟨2, 1⟩⟩ ⟨⟨1, 1⟩⟩ = some KAIZEN_FALSE ∧
      Posix.kaizen_frame_time_lesser true ⟨⟨2, 1⟩⟩ ⟨⟨1, 1⟩⟩ = some KAIZEN_TRUE := by
  decide

/-- C9 (defect of the code): at `x = (2 s, 1 ns)`, `y = (1 s, 1 ns)`, where `x ≥ y`
and not `x ≤ y`, `kaizen_frame_time_greater_or_equal (x, y)` is false and
`kaizen_frame_time_lesser_or_equal (x, y)` is true, and the ordering assertion of
`kaizen_frame_time_subtract (x, y)` aborts although `later ≥ earlier`. At
`x = (1 s, 1 ns)`, `y = (1 s, 2 ns)`, where `x < y`,
`kaizen_frame_time_greater_or_equal (x, y)` is true and the assertion of
`kaizen_frame_time_subtract (x, y)` lets the call through, storing `(0 s, -1 ns)`. -/
theorem posix_greater_or_equal_not_lexicographic :
    Posix.lex_le ⟨⟨1, 1⟩⟩ ⟨⟨2, 1⟩⟩ ∧ ¬ Posix.lex_le ⟨⟨2, 1⟩⟩ ⟨⟨1, 1⟩⟩ ∧
      Posix.kaizen_frame_time_greater_or_equal false ⟨⟨2, 1⟩⟩ ⟨⟨1, 1⟩⟩
        = some KAIZEN_FALSE ∧
      Posix.kaizen_frame_time_lesser_or_equal false ⟨⟨2, 1⟩⟩ ⟨⟨1, 1⟩⟩
        = some KAIZEN_TRUE ∧
      Posix.kaizen_frame_time_subtract false ⟨⟨2, 1⟩⟩ ⟨⟨1, 1⟩⟩ = none ∧
      ¬ Posix.lex_le ⟨⟨1, 2⟩⟩ ⟨⟨1, 1⟩⟩ ∧
      Posix.kaizen_frame_time_greater_or_equal false ⟨⟨1, 1⟩⟩ ⟨⟨1, 2⟩⟩
        = some KAIZEN_TRUE ∧
      Posix.kaizen_frame_time_subtract false ⟨⟨1, 1⟩⟩ ⟨⟨1, 2⟩⟩
        = some (KAIZEN_SUCCESS, ⟨⟨0, -1⟩⟩) := by
  decide

/-- C10 (defect of the code): at `x = (1 s, 1 ns)`, `y = (1 s, 2 ns)`, which differ in
the nanoseconds only, `kaizen_frame_time_equal (x, y)` is false and
`kaizen_frame_time_unequal (x, y)` is false as well; the same holds at
`x = (1 s, 1 ns)`, `y = (2 s, 1 ns)`, which differ in the seconds only. -/
theorem posix_unequal_not_negation_of_equal :
    Posix.kaizen_frame_time_equal false ⟨⟨1, 1⟩⟩ ⟨⟨1, 2⟩⟩ = some KAIZEN_FALSE ∧
      Posix.kaizen_frame_time_unequal false ⟨⟨1, 1⟩⟩ ⟨⟨1, 2⟩⟩ = some KAIZEN_FALSE ∧
      Posix.kaizen_frame_time_equal false ⟨⟨1, 1⟩⟩ ⟨⟨2, 1⟩⟩ = some KAIZEN_FALSE ∧
      Posix.kaizen_frame_time_unequal false ⟨⟨1, 1⟩⟩ ⟨⟨2, 1⟩⟩ = some KAIZEN_FALSE ∧
      Posix.kaizen_frame_time_equal true ⟨⟨1, 1⟩⟩ ⟨⟨1, 2⟩⟩ = some KAIZEN_FALSE ∧
      Posix.kaizen_frame_time_unequal true ⟨⟨1, 1⟩⟩ ⟨⟨1, 2⟩⟩ = some KAIZEN_FALSE := by
  decide

/-! ## Theorems: comparison predicates and the zero constant -/

/-- Posix `kaizen_frame_time_equal` past its operand assertions (built with `NDEBUG`, or
both operands accepted by `kaizen_internal_timespec_is_valid`): the call returns, and it
returns true exactly when `x` and `y` have the same seconds field and the same nanoseconds
field. -/
theorem posix_equal_past_assertions_iff_same_fields (ndebug : Bool)
    (x y : Posix.kaizen_raw_frame_time_s)
    (hpre : ndebug = true ∨
      (Posix.kaizen_internal_timespec_is_valid x.time = true ∧
        Posix.kaizen_internal_timespec_is_valid y.time = true)) :
    Posix.kaizen_frame_time_equal ndebug x y
        = some (decide (x.time.tv_sec = y.time.tv_sec ∧ x.time.tv_nsec = y.time.tv_nsec)) ∧
      (Posix.kaizen_frame_time_equal ndebug x y = some KAIZEN_TRUE
        ↔ x.time.tv_sec = y.time.tv_sec ∧ x.time.tv_nsec = y.time.tv_nsec) := by
  have hval : Posix.kaizen_frame_time_equal ndebug x y
      = some (decide (y.time.tv_sec = x.time.tv_sec)
          && decide (y.time.tv_nsec = x.time.tv_nsec)) := by
    rcases hpre with h | ⟨hx, hy⟩
    · subst h
      simp [Posix.kaizen_frame_time_equal, c_assert_ndebug]
    · cases ndebug <;> simp [Posix.kaizen_frame_time_equal, c_assert, hx, hy]
  have hbool : (decide (y.time.tv_sec = x.time.tv_sec)
      && decide (y.time.tv_nsec = x.time.tv_nsec))
      = decide (x.time.tv_sec = y.time.tv_sec ∧ x.time.tv_nsec = y.time.tv_nsec) := by
    rw [Bool.eq_iff_iff]
    simp only [Bool.and_eq_true, decide_eq_true_eq]
    constructor
    · rintro ⟨h1, h2⟩; exact ⟨h1.symm, h2.symm⟩
    · rintro ⟨h1, h2⟩; exact ⟨h1.symm, h2.symm⟩
  rw [hval, hbool]
  refine ⟨rfl, ?_⟩
  simp [KAIZEN_TRUE]

/-- C11 (defect of the code): at the well-formed values `x = y = (1 s, 0 ns)`, which have
the same seconds field and the same nanoseconds field, the debug build of
`kaizen_frame_time_equal (x, y)` is not true: the function asserts
`kaizen_internal_timespec_is_valid` on both operands, which rejects a zero nanoseconds
field, and the process aborts before the fields are compared. The same happens when both
operands are `KAIZEN_RAW_FRAME_TIME_ZERO`. The release build returns true for both. -/
theorem posix_equal_aborts_on_whole_seconds_in_debug_build :
    Posix.well_formed ⟨⟨1, 0⟩⟩ ∧
      Posix.kaizen_internal_timespec_is_valid ⟨1, 0⟩ = KAIZEN_FALSE ∧
      Posix.kaizen_frame_time_equal false ⟨⟨1, 0⟩⟩ ⟨⟨1, 0⟩⟩ = none ∧
      Posix.kaizen_frame_time_equal false Posix.KAIZEN_RAW_FRAME_TIME_ZERO
        Posix.KAIZEN_RAW_FRAME_TIME_ZERO = none ∧
      Posix.kaizen_frame_time_equal true ⟨⟨1, 0⟩⟩ ⟨⟨1, 0⟩⟩ = some KAIZEN_TRUE ∧
      Posix.kaizen_frame_time_equal true Posix.KAIZEN_RAW_FRAME_TIME_ZERO
        Posix.KAIZEN_RAW_FRAME_TIME_ZERO = some KAIZEN_TRUE := by
  decide

/-- C12: in the mach backend, for all tick values `x` and `y` the six predicates return,
exactly one of `kaizen_frame_time_lesser`, `kaizen_frame_time_equal`,
`kaizen_frame_time_greater` is true, `greater_or_equal` is `greater` or `equal`,
`lesser_or_equal` is `lesser` or `equal`, and `unequal` is the negation of `equal`. -/
theorem mach_comparison_trichotomy (ndebug : Bool)
    (x y : Mach.kaizen_raw_frame_time_s) :
    ∃ l e g,
      Mach.kaizen_frame_time_lesser ndebug x y = some l ∧
      Mach.kaizen_frame_time_equal ndebug x y = some e ∧
      Mach.kaizen_frame_time_greater ndebug x y = some g ∧
      exactly_one l e g = true ∧
      Mach.kaizen_frame_time_greater_or_equal ndebug x y = some (g || e) ∧
      Mach.kaizen_frame_time_lesser_or_equal ndebug x y = some (l || e) ∧
      Mach.kaizen_frame_time_unequal ndebug x y = some (!e) := by
  refine ⟨decide (x.interval < y.interval), decide (x.interval = y.interval),
    decide (x.interval > y.interval), rfl, rfl, rfl, ?_, ?_, ?_, ?_⟩
  · rcases Nat.lt_trichotomy x.interval y.interval with h | h | h
    · have h1 : ¬ x.interval = y.interval := by omega
      have h2 : ¬ x.interval > y.interval := by omega
      simp [exactly_one, h, h1, h2]
    · simp [exactly_one, h]
    · have h1 : ¬ x.interval = y.interval := by omega
      have h2 : ¬ x.interval < y.interval := by omega
      simp [exactly_one, h, h1, h2]
  · simp only [Mach.kaizen_frame_time_greater_or_equal, Option.some.injEq]
    rw [Bool.eq_iff_iff]
    simp only [Bool.or_eq_true, decide_eq_true_eq]
    omega
  · simp only [Mach.kaizen_frame_time_lesser_or_equal, Option.some.injEq]
    rw [Bool.eq_iff_iff]
    simp only [Bool.or_eq_true, decide_eq_true_eq]
    omega
  · simp [Mach.kaizen_frame_time_unequal]

/-- Posix `kaizen_frame_time_lesser`, `kaizen_frame_time_equal` and
`kaizen_frame_time_greater` past their operand assertions (built with `NDEBUG`, or both
operands accepted by `kaizen_internal_timespec_is_valid`): the three calls return and
exactly one of them is true. -/
theorem posix_exactly_one_past_assertions (ndebug : Bool)
    (x y : Posix.kaizen_raw_frame_time_s)
    (hpre : ndebug = true ∨
      (Posix.kaizen_internal_timespec_is_valid x.time = true ∧
        Posix.kaizen_internal_timespec_is_valid y.time = true)) :
    ∃ l e g,
      Posix.kaizen_frame_time_lesser ndebug x y = some l ∧
      Posix.kaizen_frame_time_equal ndebug x y = some e ∧
      Posix.kaizen_frame_time_greater ndebug x y = some g ∧
      exactly_one l e g = true := by
  have hassert : ∀ t : Posix.timespec,
      (ndebug = true ∨ Posix.kaizen_internal_timespec_is_valid t = true) →
      c_assert ndebug (some (Posix.kaizen_internal_timespec_is_valid t)) = some () := by
    intro t ht
    rcases ht with h | h
    · subst h; rfl
    · cases ndebug <;> simp [c_assert, h]
  have hx := hassert x.time (hpre.imp id And.left)
  have hy := hassert y.time (hpre.imp id And.right)
  refine ⟨decide (y.time.tv_sec < x.time.tv_sec)
      || (decide (y.time.tv_sec = x.time.tv_sec)
        && decide (y.time.tv_nsec < x.time.tv_nsec)),
    decide (y.time.tv_sec = x.time.tv_sec) && decide (y.time.tv_nsec = x.time.tv_nsec),
    decide (y.time.tv_sec > x.time.tv_sec)
      || (decide (y.time.tv_sec = x.time.tv_sec)
        && decide (y.time.tv_nsec > x.time.tv_nsec)), ?_, ?_, ?_, ?_⟩
  · simp only [Posix.kaizen_frame_time_lesser, hx, hy, Option.pure_def,
      Option.bind_eq_bind, Option.some_bind]
  · simp only [Posix.kaizen_frame_time_equal, hx, hy, Option.pure_def,
      Option.bind_eq_bind, Option.some_bind]
  · simp only [Posix.kaizen_frame_time_greater, hx, hy, Option.pure_def,
      Option.bind_eq_bind, Option.some_bind]
  · rcases lt_trichotomy y.time.tv_sec x.time.tv_sec with h | h | h
    · have h1 : ¬ y.time.tv_sec = x.time.tv_sec := by omega
      have h2 : ¬ y.time.tv_sec > x.time.tv_sec := by omega
      simp [exactly_one, h, h1, h2]
    · rcases lt_trichotomy y.time.tv_nsec x.time.tv_nsec with k | k | k
      · have k1 : ¬ y.time.tv_nsec = x.time.tv_nsec := by omega
        have k2 : ¬ y.time.tv_nsec > x.time.tv_nsec := by omega
        simp [exactly_one, h, k, k1, k2]
      · simp [exactly_one, h, k]
      · have k1 : ¬ y.time.tv_nsec = x.time.tv_nsec := by omega
        have k2 : ¬ y.time.tv_nsec < x.time.tv_nsec := by omega
        simp [exactly_one, h, k, k1, k2]
    · have h1 : ¬ y.time.tv_sec = x.time.tv_sec := by omega
      have h2 : ¬ y.time.tv_sec < x.time.tv_sec := by omega
      simp [exactly_one, h, h1, h2]

/-- C13 (defect of the code): at the well-formed values `x = (1 s, 0 ns)`,
`y = (2 s, 0 ns)` the debug build has none of `kaizen_frame_time_lesser (x, y)`,
`kaizen_frame_time_equal (x, y)`, `kaizen_frame_time_greater (x, y)` true: each asserts
`kaizen_internal_timespec_is_valid` on both operands, which rejects a zero nanoseconds
field, and the process aborts. The release build returns from all three, with exactly one
of them true (`greater`, the operands being compared in exchanged order). -/
theorem posix_lesser_equal_greater_abort_on_whole_seconds_in_debug_build :
    Posix.well_formed ⟨⟨1, 0⟩⟩ ∧
      Posix.well_formed ⟨⟨2, 0⟩⟩ ∧
      Posix.kaizen_frame_time_lesser false ⟨⟨1, 0⟩⟩ ⟨⟨2, 0⟩⟩ = none ∧
      Posix.kaizen_frame_time_equal false ⟨⟨1, 0⟩⟩ ⟨⟨2, 0⟩⟩ = none ∧
      Posix.kaizen_frame_time_greater false ⟨⟨1, 0⟩⟩ ⟨⟨2, 0⟩⟩ = none ∧
      Posix.kaizen_frame_time_lesser true ⟨⟨1, 0⟩⟩ ⟨⟨2, 0⟩⟩ = some KAIZEN_FALSE ∧
      Posix.kaizen_frame_time_equal true ⟨⟨1, 0⟩⟩ ⟨⟨2, 0⟩⟩ = some KAIZEN_FALSE ∧
      Posix.kaizen_frame_time_greater true ⟨⟨1, 0⟩⟩ ⟨⟨2, 0⟩⟩ = some KAIZEN_TRUE ∧
      exactly_one KAIZEN_FALSE KAIZEN_FALSE KAIZEN_TRUE = true := by
  decide

/-- C14: in the mach backend, with `zero` the value of `KAIZEN_RAW_FRAME_TIME_ZERO`, for
every tick value `x` below `2 ^ 64`, `kaizen_frame_time_aggregate (zero, x)` and
`kaizen_frame_time_subtract (x, zero)` both return `KAIZEN_SUCCESS` with `x`, with
assertions checked as well as without. -/
theorem mach_zero_identity (ndebug : Bool) (x : Mach.kaizen_raw_frame_time_s)
    (hx : x.interval < 2 ^ 64) :
    Mach.kaizen_frame_time_aggregate ndebug Mach.KAIZEN_RAW_FRAME_TIME_ZERO x
        = some (KAIZEN_SUCCESS, x) ∧
      Mach.kaizen_frame_time_subtract ndebug x Mach.KAIZEN_RAW_FRAME_TIME_ZERO
        = some (KAIZEN_SUCCESS, x) := by
  have hadd : uint64_add 0 x.interval = x.interval := by
    unfold uint64_add; omega
  have hsub : uint64_sub x.interval 0 = x.interval := by
    unfold uint64_sub; omega
  constructor
  · cases ndebug <;>
      simp [Mach.kaizen_frame_time_aggregate, Mach.KAIZEN_RAW_FRAME_TIME_ZERO, c_assert,
        hadd]
  · cases ndebug <;>
      simp [Mach.kaizen_frame_time_subtract, Mach.KAIZEN_RAW_FRAME_TIME_ZERO, c_assert,
        hsub]

/-- Witness of C14 in the debug build at `x = 2 ^ 64 - 1`. -/
theorem mach_zero_identity_witness :
    Mach.kaizen_frame_time_aggregate false Mach.KAIZEN_RAW_FRAME_TIME_ZERO
          { interval := 18446744073709551615 }
        = some (KAIZEN_SUCCESS, { interval := 18446744073709551615 }) ∧
      Mach.kaizen_frame_time_subtract false { interval := 18446744073709551615 }
          Mach.KAIZEN_RAW_FRAME_TIME_ZERO
        = some (KAIZEN_SUCCESS, { interval := 18446744073709551615 }) :=
  mach_zero_identity false { interval := 18446744073709551615 } (by norm_num)

/-- C15 (defect of the code): in the posix backend `KAIZEN_RAW_FRAME_TIME_ZERO`, the
value `(0 s, 0 ns)`, is rejected by `kaizen_internal_timespec_is_valid`, which asks for
`tv_nsec > 0`. At the well-formed `x = (1 s, 1 ns)` the debug build therefore aborts in
`kaizen_frame_time_aggregate (zero, x)` and in `kaizen_frame_time_subtract (x, zero)`;
only the release build returns `x` from both. -/
theorem posix_zero_identity_aborts_in_debug_build :
    Posix.well_formed Posix.KAIZEN_RAW_FRAME_TIME_ZERO ∧ Posix.well_formed ⟨⟨1, 1⟩⟩ ∧
      Posix.kaizen_internal_timespec_is_valid Posix.KAIZEN_RAW_FRAME_TIME_ZERO.time
        = KAIZEN_FALSE ∧
      Posix.kaizen_frame_time_aggregate false Posix.KAIZEN_RAW_FRAME_TIME_ZERO ⟨⟨1, 1⟩⟩
        = none ∧
      Posix.kaizen_frame_time_subtract false ⟨⟨1, 1⟩⟩ Posix.KAIZEN_RAW_FRAME_TIME_ZERO
        = none ∧
      Posix.kaizen_frame_time_aggregate true Posix.KAIZEN_RAW_FRAME_TIME_ZERO ⟨⟨1, 1⟩⟩
        = some (KAIZEN_SUCCESS, ⟨⟨1, 1⟩⟩) ∧
      Posix.kaizen_frame_time_subtract true ⟨⟨1, 1⟩⟩ Posix.KAIZEN_RAW_FRAME_TIME_ZERO
        = some (KAIZEN_SUCCESS, ⟨⟨1, 1⟩⟩) := by
  decide

/-! ## Theorems: conversion, support and resolution queries -/

/-- C16, counterexample: with the timebase query succeeding with ratio `2 / 1`, the
tick interval `2 ^ 63` is converted to `0`: the `uint64_t` product `2 ^ 63 * 2` wraps to
zero without any check, whereas the exact value is `2 ^ 64`. -/
theorem mach_convert_to_nanoseconds_uint64_wraps :
    Mach.kaizen_internal_frame_time_convert_to_nanoseconds_uint64 false Mach.KERN_SUCCESS
        { numer := 2, denom := 1 } { interval := 9223372036854775808 } 7
        = some (KAIZEN_SUCCESS, 0) ∧
      Mach.kaizen_internal_frame_time_convert_to_nanoseconds_uint64 false Mach.KERN_SUCCESS
        { numer := 2, denom := 1 } { interval := 9223372036854775808 } 7
        ≠ some (KAIZEN_SUCCESS, 9223372036854775808 * 2 / 1) := by
  decide

/-- C16, amended: in the mach backend, when the timebase query succeeds with a ratio
`numer / denom` of `uint32_t` values, `denom > 0`, the conversion of every tick interval
`t` returns `KAIZEN_SUCCESS` with `((t * numer) mod 2 ^ 64) / denom`; when the product
`t * numer` is below `2 ^ 64` this is the exact value `⌊t * numer / denom⌋`. -/
theorem mach_convert_to_nanoseconds_uint64_wrapped_quotient (ndebug : Bool)
    (timebase : Mach.mach_timebase_info_data_t) (time : Mach.kaizen_raw_frame_time_s)
    (result : Nat)
    (hn : timebase.numer < 2 ^ 32) (hd : 0 < timebase.denom)
    (hd32 : timebase.denom < 2 ^ 32) :
    Mach.kaizen_internal_frame_time_convert_to_nanoseconds_uint64 ndebug Mach.KERN_SUCCESS
        timebase time result
        = some (KAIZEN_SUCCESS,
            (time.interval * timebase.numer) % 2 ^ 64 / timebase.denom) ∧
      (time.interval * timebase.numer < 2 ^ 64 →
        Mach.kaizen_internal_frame_time_convert_to_nanoseconds_uint64 ndebug
          Mach.KERN_SUCCESS timebase time result
          = some (KAIZEN_SUCCESS, time.interval * timebase.numer / timebase.denom)) := by
  have hnum : timebase.numer % 2 ^ 64 = timebase.numer := Nat.mod_eq_of_lt (by omega)
  have hden : timebase.denom % 2 ^ 64 = timebase.denom := Nat.mod_eq_of_lt (by omega)
  have hne : ¬ (timebase.denom = 0) := by omega
  have hgen : Mach.kaizen_internal_frame_time_convert_to_nanoseconds_uint64 ndebug
      Mach.KERN_SUCCESS timebase time result
      = some (KAIZEN_SUCCESS,
          (time.interval * timebase.numer) % 2 ^ 64 / timebase.denom) := by
    simp only [Mach.kaizen_internal_frame_time_convert_to_nanoseconds_uint64, uint64_mul,
      hnum, hden, hne, if_true, if_false]
  refine ⟨hgen, ?_⟩
  intro hprod
  rw [hgen, Nat.mod_eq_of_lt hprod]

/-- Witness of C16 (amended) at the ratio `125 / 3`: `t = 1000` ticks, where the product
does not wrap. -/
theorem mach_convert_to_nanoseconds_uint64_wrapped_quotient_witness :
    Mach.kaizen_internal_frame_time_convert_to_nanoseconds_uint64 false Mach.KERN_SUCCESS
        { numer := 125, denom := 3 } { interval := 1000 } 7
        = some (KAIZEN_SUCCESS, (1000 * 125) % 2 ^ 64 / 3) ∧
      (1000 * 125 < 2 ^ 64 →
        Mach.kaizen_internal_frame_time_convert_to_nanoseconds_uint64 false
          Mach.KERN_SUCCESS { numer := 125, denom := 3 } { interval := 1000 } 7
          = some (KAIZEN_SUCCESS, 1000 * 125 / 3)) :=
  mach_convert_to_nanoseconds_uint64_wrapped_quotient false
    { numer := 125, denom := 3 } { interval := 1000 } 7
    (by norm_num) (by norm_num) (by norm_num)

/-- Posix resolution query past its validity assertion: when `clock_getres` succeeds and
reports a resolution with `tv_sec ≥ 0`, `0 ≤ tv_nsec < 1_000_000_000` that is not zero, and
the build has `NDEBUG` or the reported `tv_nsec` is positive (the values the validity
assertion accepts), `kaizen_frame_time_is_supported` returns true and
`kaizen_frame_time_query_resolution` returns `KAIZEN_SUCCESS` after writing a resolution
different from `kaizen_unknown_frame_time_resolution`. -/
theorem posix_query_resolution_known_past_assertion (ndebug : Bool)
    (error_indicator : Int) (res : Posix.timespec)
    (resolution : kaizen_frame_time_resolution_t)
    (hok : error_indicator = 0)
    (hsec : 0 ≤ res.tv_sec ∧ res.tv_sec < 2 ^ 63)
    (hnsec : 0 ≤ res.tv_nsec ∧ res.tv_nsec < 1000000000)
    (hpos : 0 < res.tv_sec ∨ 0 < res.tv_nsec)
    (hbuild : ndebug = true ∨ 0 < res.tv_nsec) :
    Posix.kaizen_frame_time_is_supported ndebug error_indicator res = some KAIZEN_TRUE ∧
      ∃ written,
        Posix.kaizen_frame_time_query_resolution ndebug error_indicator res resolution
          = some (KAIZEN_SUCCESS, written) ∧
        written ≠ kaizen_unknown_frame_time_resolution := by
  subst hok
  have hwrap : int64_wrap res.tv_sec = res.tv_sec :=
    int64_wrap_of_range _ (by omega) (by omega)
  have hassert :
      c_assert ndebug (some (Posix.kaizen_internal_timespec_is_valid res)) = some () := by
    rcases hbuild with h | h
    · subst h; rfl
    · have hv : Posix.kaizen_internal_timespec_is_valid res = true := by
        simp [Posix.kaizen_internal_timespec_is_valid,
          Posix.KAIZEN_INTERNAL_ONE_SECOND_IN_NANOSECONDS]
        omega
      cases ndebug <;> simp [c_assert, hv]
  have hassert2 :
      c_assert ndebug (some (KAIZEN_TRUE == Posix.kaizen_internal_timespec_is_valid res))
        = some () := by
    have : (KAIZEN_TRUE == Posix.kaizen_internal_timespec_is_valid res)
        = Posix.kaizen_internal_timespec_is_valid res := by
      cases Posix.kaizen_internal_timespec_is_valid res <;> rfl
    rw [this]; exact hassert
  constructor
  · simp [Posix.kaizen_frame_time_is_supported, hassert]
  · simp only [Posix.kaizen_frame_time_query_resolution, hassert2, hwrap, Option.pure_def,
      Option.bind_eq_bind, Option.some_bind, if_true]
    by_cases h1 : res.tv_sec > 0
    · exact ⟨kaizen_seconds_frame_time_resolution,
        by simp only [h1, if_true], by decide⟩
    · by_cases h2 : res.tv_nsec ≥ 1000000
      · exact ⟨kaizen_milliseconds_frame_time_resolution,
          by simp only [h1, h2, if_true, if_false], by decide⟩
      · by_cases h3 : res.tv_nsec ≥ 1000
        · exact ⟨kaizen_microseconds_frame_time_resolution,
            by simp only [h1, h2, h3, if_true, if_false], by decide⟩
        · have h4 : res.tv_nsec > 0 := by omega
          exact ⟨kaizen_nanoseconds_frame_time_resolution,
            by simp only [h1, h2, h3, h4, if_true, if_false], by decide⟩

/-- C18: in the win32 backend, whenever `kaizen_frame_time_is_supported` returns true on
a response of `QueryPerformanceFrequency`, `kaizen_frame_time_query_resolution` on the
same response returns `KAIZEN_SUCCESS` after writing nanoseconds, microseconds,
milliseconds or seconds; in the mach backend `kaizen_frame_time_query_resolution` always
returns `KAIZEN_SUCCESS` after writing nanoseconds. Neither writes unknown. -/
theorem win32_mach_query_resolution_known_when_supported (ndebug : Bool)
    (errc frequency : Int) (resolution : kaizen_frame_time_resolution_t)
    (hsupported :
      Win32.kaizen_frame_time_is_supported ndebug errc frequency = some KAIZEN_TRUE) :
    (∃ written,
        Win32.kaizen_frame_time_query_resolution ndebug errc frequency resolution
          = some (KAIZEN_SUCCESS, written) ∧
        (written = kaizen_nanoseconds_frame_time_resolution ∨
          written = kaizen_microseconds_frame_time_resolution ∨
          written = kaizen_milliseconds_frame_time_resolution ∨
          written = kaizen_seconds_frame_time_resolution) ∧
        written ≠ kaizen_unknown_frame_time_resolution) ∧
      Mach.kaizen_frame_time_query_resolution ndebug resolution
        = some (KAIZEN_SUCCESS, kaizen_nanoseconds_frame_time_resolution) ∧
      kaizen_nanoseconds_frame_time_resolution ≠ kaizen_unknown_frame_time_resolution := by
  have herrc : Win32.FALSE ≠ errc := by
    intro h
    simp [Win32.kaizen_frame_time_is_supported, h, KAIZEN_TRUE, KAIZEN_FALSE] at hsupported
  refine ⟨?_, rfl, by decide⟩
  simp only [Win32.kaizen_frame_time_query_resolution, herrc, ne_eq, not_false_eq_true,
    if_true]
  by_cases h1 : 1000 > frequency
  · exact ⟨kaizen_seconds_frame_time_resolution, by simp only [h1, if_true],
      by simp, by decide⟩
  · by_cases h2 : 1000000 > frequency
    · exact ⟨kaizen_milliseconds_frame_time_resolution,
        by simp only [h1, h2, if_true, if_false], by simp, by decide⟩
    · by_cases h3 : 1000000000 > frequency
      · exact ⟨kaizen_microseconds_frame_time_resolution,
          by simp only [h1, h2, h3, if_true, if_false], by simp, by decide⟩
      · exact ⟨kaizen_nanoseconds_frame_time_resolution,
          by simp only [h1, h2, h3, if_false], by simp, by decide⟩

/-- Witness of C18 at a successful frequency query reporting 3579545 Hz. -/
theorem win32_mach_query_resolution_known_when_supported_witness :
    (∃ written,
        Win32.kaizen_frame_time_query_resolution false 1 3579545
            kaizen_unknown_frame_time_resolution
          = some (KAIZEN_SUCCESS, written) ∧
        (written = kaizen_nanoseconds_frame_time_resolution ∨
          written = kaizen_microseconds_frame_time_resolution ∨
          written = kaizen_milliseconds_frame_time_resolution ∨
          written = kaizen_seconds_frame_time_resolution) ∧
        written ≠ kaizen_unknown_frame_time_resolution) ∧
      Mach.kaizen_frame_time_query_resolution false kaizen_unknown_frame_time_resolution
        = some (KAIZEN_SUCCESS, kaizen_nanoseconds_frame_time_resolution) ∧
      kaizen_nanoseconds_frame_time_resolution ≠ kaizen_unknown_frame_time_resolution :=
  win32_mach_query_resolution_known_when_supported false 1 3579545
    kaizen_unknown_frame_time_resolution (by decide)

/-- C19: in the win32 backend, when `QueryPerformanceFrequency` fails (returns `FALSE`),
`kaizen_frame_time_query_resolution` does not abort, with assertions checked or not: it
writes `kaizen_unknown_frame_time_resolution` over whatever the output held and returns
`ENOSYS`, which is not `KAIZEN_SUCCESS`. -/
theorem win32_query_resolution_failure (ndebug : Bool)
    (errc frequency : Int) (resolution : kaizen_frame_time_resolution_t)
    (hfail : errc = Win32.FALSE) :
    Win32.kaizen_frame_time_query_resolution ndebug errc frequency resolution
        = some (ENOSYS, kaizen_unknown_frame_time_resolution) ∧
      ENOSYS ≠ KAIZEN_SUCCESS := by
  subst hfail
  exact ⟨by simp [Win32.kaizen_frame_time_query_resolution], by decide⟩

/-- Witness of C19 in the debug build, the output holding seconds before the call. -/
theorem win32_query_resolution_failure_witness :
    Win32.kaizen_frame_time_query_resolution false 0 0 kaizen_seconds_frame_time_resolution
        = some (ENOSYS, kaizen_unknown_frame_time_resolution) ∧
      ENOSYS ≠ KAIZEN_SUCCESS :=
  win32_query_resolution_failure false 0 0 kaizen_seconds_frame_time_resolution rfl

/-- C20, counterexample: in the posix backend built with assertions, when `clock_getres`
fails (returns `-1`), `kaizen_frame_time_query_resolution` aborts at `assert(0)` in its
failure path; it returns nothing. -/
theorem posix_query_resolution_failure_aborts_in_debug_build :
    Posix.kaizen_frame_time_query_resolution false (-1) ⟨0, 1⟩
        kaizen_unknown_frame_time_resolution = none := by
  decide

/-- C20, amended: in the posix backend, when `clock_getres` fails (returns non-zero),
`kaizen_frame_time_query_resolution` built with assertions aborts; built with `NDEBUG`
it does not abort and returns `ENOSYS`, which is not `KAIZEN_SUCCESS`, and an output
that held `kaizen_unknown_frame_time_resolution` before the call still holds it. -/
theorem posix_query_resolution_failure (error_indicator : Int) (res : Posix.timespec)
    (hfail : error_indicator ≠ 0) :
    (∀ resolution,
        Posix.kaizen_frame_time_query_resolution false error_indicator res resolution
          = none) ∧
      (∀ resolution, ∃ left,
        Posix.kaizen_frame_time_query_resolution true error_indicator res resolution
          = some (ENOSYS, left)) ∧
      Posix.kaizen_frame_time_query_resolution true error_indicator res
          kaizen_unknown_frame_time_resolution
        = some (ENOSYS, kaizen_unknown_frame_time_resolution) ∧
      ENOSYS ≠ KAIZEN_SUCCESS := by
  have hne : ¬ (0 = error_indicator) := fun h => hfail h.symm
  refine ⟨?_, ?_, ?_, by decide⟩
  · intro resolution
    cases hv : (KAIZEN_TRUE == Posix.kaizen_internal_timespec_is_valid res) <;>
      simp [Posix.kaizen_frame_time_query_resolution, c_assert, hv, hne]
  · intro resolution
    exact ⟨resolution, by
      simp [Posix.kaizen_frame_time_query_resolution, c_assert_ndebug, hne]⟩
  · simp [Posix.kaizen_frame_time_query_resolution, c_assert_ndebug, hne]

/-- Witness of C20 (amended) at `clock_getres` returning `-1`. -/
theorem posix_query_resolution_failure_witness :
    (∀ resolution,
        Posix.kaizen_frame_time_query_resolution false (-1) ⟨0, 1⟩ resolution = none) ∧
      (∀ resolution, ∃ left,
        Posix.kaizen_frame_time_query_resolution true (-1) ⟨0, 1⟩ resolution
          = some (ENOSYS, left)) ∧
      Posix.kaizen_frame_time_query_resolution true (-1) ⟨0, 1⟩
          kaizen_unknown_frame_time_resolution
        = some (ENOSYS, kaizen_unknown_frame_time_resolution) ∧
      ENOSYS ≠ KAIZEN_SUCCESS :=
  posix_query_resolution_failure (-1) ⟨0, 1⟩ (by decide)

/-! ## Theorems: sampling and conversion to nanoseconds -/

/-- C21: in the win32 backend, when `QueryPerformanceCounter` succeeds (returns
non-`FALSE`), `kaizen_frame_time_query` returns `KAIZEN_SUCCESS` and stores exactly the
reported counter; when it returns `FALSE` the call does not abort, with assertions
checked or not, returns `ENOSYS`, which is not `KAIZEN_SUCCESS`, and leaves the output
as the caller had it. -/
theorem win32_query_stores_counter_or_reports_enosys (ndebug : Bool)
    (errc counter : Int) (now : Win32.kaizen_raw_frame_time_s)
    (hok : errc ≠ Win32.FALSE) :
    Win32.kaizen_frame_time_query ndebug errc counter now
        = some (KAIZEN_SUCCESS, { counter := counter }) ∧
      Win32.kaizen_frame_time_query ndebug Win32.FALSE counter now = some (ENOSYS, now) ∧
      ENOSYS ≠ KAIZEN_SUCCESS := by
  have hne : Win32.FALSE ≠ errc := fun h => hok h.symm
  refine ⟨?_, ?_, by decide⟩
  · simp [Win32.kaizen_frame_time_query, hne]
  · cases ndebug <;> simp [Win32.kaizen_frame_time_query, c_assert, Win32.TRUE]

/-- Witness of C21 in the debug build: success reporting the counter 42, and failure
with the output holding 7. -/
theorem win32_query_stores_counter_or_reports_enosys_witness :
    Win32.kaizen_frame_time_query false 1 42 { counter := 7 }
        = some (KAIZEN_SUCCESS, { counter := 42 }) ∧
      Win32.kaizen_frame_time_query false Win32.FALSE 42 { counter := 7 }
        = some (ENOSYS, { counter := 7 }) ∧
      ENOSYS ≠ KAIZEN_SUCCESS :=
  win32_query_stores_counter_or_reports_enosys false 1 42 { counter := 7 } (by decide)

/-- C22, counterexample: in the posix backend built with assertions, when
`clock_gettime` fails (returns `-1`), `kaizen_frame_time_query` aborts at the
`assert(0)` of its failure path and returns nothing. -/
theorem posix_query_failure_aborts_in_debug_build :
    Posix.kaizen_frame_time_query false (-1) ⟨1, 1⟩ ⟨⟨5, 5⟩⟩ = none := by
  decide

/-- C22, amended: in the posix backend, when `clock_gettime` fails (returns non-zero),
`kaizen_frame_time_query` built with assertions aborts; built with `NDEBUG` it returns
`ENOSYS`, which is not `KAIZEN_SUCCESS`, with the output as the caller had it. When
`clock_gettime` succeeds with a sample that the validity assertion accepts (or the build
has `NDEBUG`), it returns `KAIZEN_SUCCESS` with the sample stored. -/
theorem posix_query_failure_and_success (ndebug : Bool)
    (error_indicator : Int) (time_failed time_sampled : Posix.timespec)
    (now : Posix.kaizen_raw_frame_time_s)
    (hfail : error_indicator ≠ 0)
    (hvalid : ndebug = true ∨
      Posix.kaizen_internal_timespec_is_valid time_sampled = true) :
    Posix.kaizen_frame_time_query false error_indicator time_failed now = none ∧
      Posix.kaizen_frame_time_query true error_indicator time_failed now
        = some (ENOSYS, now) ∧
      ENOSYS ≠ KAIZEN_SUCCESS ∧
      Posix.kaizen_frame_time_query ndebug 0 time_sampled now
        = some (KAIZEN_SUCCESS, { time := time_sampled }) := by
  have hne : ¬ (0 = error_indicator) := fun h => hfail h.symm
  refine ⟨?_, ?_, by decide, ?_⟩
  · cases hv : Posix.kaizen_internal_timespec_is_valid time_failed <;>
      simp [Posix.kaizen_frame_time_query, c_assert, hv, hne]
  · simp [Posix.kaizen_frame_time_query, c_assert_ndebug, hne]
  · rcases hvalid with h | h
    · subst h
      simp [Posix.kaizen_frame_time_query, c_assert_ndebug]
    · cases ndebug <;> simp [Posix.kaizen_frame_time_query, c_assert, h]

/-- Witness of C22 (amended): failure with `-1`, success in the debug build with the
sample `(3 s, 4 ns)`. -/
theorem posix_query_failure_and_success_witness :
    Posix.kaizen_frame_time_query false (-1) ⟨0, 0⟩ ⟨⟨5, 5⟩⟩ = none ∧
      Posix.kaizen_frame_time_query true (-1) ⟨0, 0⟩ ⟨⟨5, 5⟩⟩ = some (ENOSYS, ⟨⟨5, 5⟩⟩) ∧
      ENOSYS ≠ KAIZEN_SUCCESS ∧
      Posix.kaizen_frame_time_query false 0 ⟨3, 4⟩ ⟨⟨5, 5⟩⟩
        = some (KAIZEN_SUCCESS, { time := ⟨3, 4⟩ }) :=
  posix_query_failure_and_success false (-1) ⟨0, 0⟩ ⟨3, 4⟩ ⟨⟨5, 5⟩⟩ (by decide)
    (Or.inr (by decide))

/-- C23 (defect of the code): at the well-formed samples `one = (1 s, 1 ns)` and
`two = (2 s, 2 ns)`, `kaizen_frame_time_difference` stores `(-1 s, -1 ns)` in either
order of the operands, with assertions checked or not. Its conversion to nanoseconds is
`-1_000_000_001` in the release build and an abort (validity assertion) in the debug
build: never a value `≥ 0`. -/
theorem posix_difference_converts_to_negative_nanoseconds :
    Posix.well_formed ⟨⟨1, 1⟩⟩ ∧ Posix.well_formed ⟨⟨2, 2⟩⟩ ∧
      Posix.kaizen_frame_time_difference false ⟨⟨1, 1⟩⟩ ⟨⟨2, 2⟩⟩
        = some (KAIZEN_SUCCESS, ⟨⟨-1, -1⟩⟩) ∧
      Posix.kaizen_frame_time_difference false ⟨⟨2, 2⟩⟩ ⟨⟨1, 1⟩⟩
        = some (KAIZEN_SUCCESS, ⟨⟨-1, -1⟩⟩) ∧
      Posix.kaizen_frame_time_difference true ⟨⟨1, 1⟩⟩ ⟨⟨2, 2⟩⟩
        = some (KAIZEN_SUCCESS, ⟨⟨-1, -1⟩⟩) ∧
      Posix.kaizen_frame_time_difference true ⟨⟨2, 2⟩⟩ ⟨⟨1, 1⟩⟩
        = some (KAIZEN_SUCCESS, ⟨⟨-1, -1⟩⟩) ∧
      Posix.kaizen_frame_time_convert_to_nanoseconds false ⟨⟨-1, -1⟩⟩ = none ∧
      Posix.kaizen_frame_time_convert_to_nanoseconds true ⟨⟨-1, -1⟩⟩
        = some (KAIZEN_SUCCESS, -1000000001) ∧
      ((-1000000001 : ℚ) < 0) := by
  refine ⟨by decide, by decide, by decide, by decide, by decide, by decide, by decide,
    ?_, by norm_num⟩
  simp [Posix.kaizen_frame_time_convert_to_nanoseconds, c_assert_ndebug]
  norm_num

/-- C24: in the win32 backend, for counter values `0 ≤ first ≤ second` (signed 64-bit)
and a successful frequency query reporting a positive frequency,
`kaizen_frame_time_subtract (second, first)` returns `KAIZEN_SUCCESS` with the
non-negative counter `second - first`, and `kaizen_frame_time_convert_to_nanoseconds` of
that result returns `KAIZEN_SUCCESS` with a value `≥ 0`; with assertions checked or
not. -/
theorem win32_subtract_then_nanoseconds_nonnegative (ndebug : Bool)
    (first second : Win32.kaizen_raw_frame_time_s) (errc frequency : Int) (result : ℚ)
    (hfirst : 0 ≤ first.counter) (horder : first.counter ≤ second.counter)
    (hrange : second.counter < 2 ^ 63)
    (hquery : errc ≠ Win32.FALSE) (hfrequency : 0 < frequency) :
    ∃ diff nanosecs,
      Win32.kaizen_frame_time_subtract ndebug second first = some (KAIZEN_SUCCESS, diff) ∧
      diff.counter = second.counter - first.counter ∧ 0 ≤ diff.counter ∧
      Win32.kaizen_frame_time_convert_to_nanoseconds ndebug errc frequency diff result
        = some (KAIZEN_SUCCESS, nanosecs) ∧
      0 ≤ nanosecs := by
  have hne : Win32.FALSE ≠ errc := fun h => hquery h.symm
  have hwrap : int64_wrap (second.counter - first.counter)
      = second.counter - first.counter := int64_wrap_of_range _ (by omega) (by omega)
  have hsecond : 0 ≤ second.counter := by omega
  have hdiff : 0 ≤ second.counter - first.counter := by omega
  refine ⟨{ counter := second.counter - first.counter },
    1000000000 * ((second.counter - first.counter : Int) : ℚ) / (frequency : ℚ),
    ?_, rfl, hdiff, ?_, ?_⟩
  · cases ndebug <;>
      simp [Win32.kaizen_frame_time_subtract, c_assert, hwrap, hfirst, hsecond, horder]
  · cases ndebug <;>
      simp [Win32.kaizen_frame_time_convert_to_nanoseconds,
        Win32.kaizen_internal_frame_time_convert_with_factor, c_assert, hne, hdiff]
  · have h1 : (0 : ℚ) ≤ ((second.counter - first.counter : Int) : ℚ) := by
      exact_mod_cast hdiff
    have h2 : (0 : ℚ) < (frequency : ℚ) := by exact_mod_cast hfrequency
    positivity

/-- Witness of C24 in the debug build at `first = 100`, `second = 1100` and a frequency
of 3579545 Hz. -/
theorem win32_subtract_then_nanoseconds_nonnegative_witness :
    ∃ diff nanosecs,
      Win32.kaizen_frame_time_subtract false { counter := 1100 } { counter := 100 }
        = some (KAIZEN_SUCCESS, diff) ∧
      diff.counter = (1100 : Int) - 100 ∧ 0 ≤ diff.counter ∧
      Win32.kaizen_frame_time_convert_to_nanoseconds false 1 3579545 diff 0
        = some (KAIZEN_SUCCESS, nanosecs) ∧
      0 ≤ nanosecs :=
  win32_subtract_then_nanoseconds_nonnegative false { counter := 100 } { counter := 1100 }
    1 3579545 0 (by decide) (by decide) (by norm_num) (by decide) (by decide)

/-- Posix conversions on a call that gets past the validity assertion (built with
`NDEBUG`, or the duration accepted by `kaizen_internal_timespec_is_valid`): all four
return `KAIZEN_SUCCESS`, the nanoseconds are `1_000_000_000 * seconds + nanoseconds`,
and each coarser unit is the next finer one divided by 1000. -/
theorem posix_conversions_consistent (ndebug : Bool) (d : Posix.kaizen_raw_frame_time_s)
    (hpre : ndebug = true ∨ Posix.kaizen_internal_timespec_is_valid d.time = true) :
    ∃ ns us ms s : ℚ,
      Posix.kaizen_frame_time_convert_to_nanoseconds ndebug d = some (KAIZEN_SUCCESS, ns) ∧
      Posix.kaizen_frame_time_convert_to_microseconds ndebug d = some (KAIZEN_SUCCESS, us) ∧
      Posix.kaizen_frame_time_convert_to_milliseconds ndebug d = some (KAIZEN_SUCCESS, ms) ∧
      Posix.kaizen_frame_time_convert_to_seconds ndebug d = some (KAIZEN_SUCCESS, s) ∧
      ns = 1000000000 * (d.time.tv_sec : ℚ) + (d.time.tv_nsec : ℚ) ∧
      us = ns / 1000 ∧ ms = us / 1000 ∧ s = ms / 1000 := by
  have hassert :
      c_assert ndebug (some (Posix.kaizen_internal_timespec_is_valid d.time)) = some () := by
    rcases hpre with h | h
    · subst h; rfl
    · cases ndebug <;> simp [c_assert, h]
  refine ⟨1000000000 * (d.time.tv_sec : ℚ) + (d.time.tv_nsec : ℚ),
    1000000 * (d.time.tv_sec : ℚ) + (d.time.tv_nsec : ℚ) / 1000,
    1000 * (d.time.tv_sec : ℚ) + (d.time.tv_nsec : ℚ) / 1000000,
    (d.time.tv_sec : ℚ) + (d.time.tv_nsec : ℚ) / 1000000000, ?_, ?_, ?_, ?_, rfl, ?_, ?_, ?_⟩
  · simp only [Posix.kaizen_frame_time_convert_to_nanoseconds, hassert, Option.pure_def,
      Option.bind_eq_bind, Option.some_bind]
  · simp only [Posix.kaizen_frame_time_convert_to_microseconds, hassert, Option.pure_def,
      Option.bind_eq_bind, Option.some_bind]
  · simp only [Posix.kaizen_frame_time_convert_to_milliseconds, hassert, Option.pure_def,
      Option.bind_eq_bind, Option.some_bind]
  · simp only [Posix.kaizen_frame_time_convert_to_seconds, hassert, Option.pure_def,
      Option.bind_eq_bind, Option.some_bind]
  · ring
  · ring
  · ring

/-- C25 (defect of the code): at the well-formed duration `d = (1 s, 0 ns)` the debug
build returns no conversion at all: each of the four conversions asserts
`kaizen_internal_timespec_is_valid`, which rejects a zero nanoseconds field, and
aborts. The release build returns `1_000_000_000` nanoseconds for it. -/
theorem posix_conversions_abort_on_whole_seconds :
    Posix.well_formed ⟨⟨1, 0⟩⟩ ∧
      Posix.kaizen_internal_timespec_is_valid ⟨1, 0⟩ = KAIZEN_FALSE ∧
      Posix.kaizen_frame_time_convert_to_nanoseconds false ⟨⟨1, 0⟩⟩ = none ∧
      Posix.kaizen_frame_time_convert_to_microseconds false ⟨⟨1, 0⟩⟩ = none ∧
      Posix.kaizen_frame_time_convert_to_milliseconds false ⟨⟨1, 0⟩⟩ = none ∧
      Posix.kaizen_frame_time_convert_to_seconds false ⟨⟨1, 0⟩⟩ = none ∧
      Posix.kaizen_frame_time_convert_to_nanoseconds true ⟨⟨1, 0⟩⟩
        = some (KAIZEN_SUCCESS, 1000000000) := by
  refine ⟨by decide, by decide, by decide, by decide, by decide, by decide, ?_⟩
  simp [Posix.kaizen_frame_time_convert_to_nanoseconds, c_assert_ndebug]

/-- C26: `kaizen_frame_time_is_monotonic` takes no input from the platform and returns
`KAIZEN_TRUE` in the mach backend and in the win32 backend, `KAIZEN_FALSE` in the posix
backend, with assertions checked or not. -/
theorem is_monotonic_constant_per_backend (ndebug : Bool) :
    Mach.kaizen_frame_time_is_monotonic ndebug = some KAIZEN_TRUE ∧
      Win32.kaizen_frame_time_is_monotonic ndebug = some KAIZEN_TRUE ∧
      Posix.kaizen_frame_time_is_monotonic ndebug = some KAIZEN_FALSE :=
  ⟨rfl, rfl, rfl⟩

/-- A sequence of an assertion and a continuation returns only if the continuation
does. -/
theorem option_unit_bind_eq_some {β : Type} (x : Option Unit) (f : Unit → Option β)
    (v : β) (h : x.bind f = some v) : f () = some v := by
  cases x with
  | none => simp at h
  | some u => simpa using h

/-- C27: win32 reliability scope. If `kaizen_reliable_frame_time_scope_init` returns
`KAIZEN_SUCCESS` on a thread with affinity mask `m`, the scope it leaves records `m`;
and if `kaizen_reliable_frame_time_scope_finalize` then returns `KAIZEN_SUCCESS` on the
thread state and the scope that init left, the thread has affinity mask `m` again. -/
theorem win32_scope_finalize_restores_affinity (ndebug : Bool)
    (ideal_processor : Nat) (accepted_init accepted_finalize : Bool)
    (last_error_init last_error_finalize : Nat)
    (thread thread_pinned thread_restored : Win32.thread_state)
    (scope scope_open : Win32.kaizen_raw_reliable_frame_time_scope_s)
    (hinit : Win32.kaizen_reliable_frame_time_scope_init ndebug ideal_processor
        accepted_init last_error_init thread scope
      = some (KAIZEN_SUCCESS, scope_open, thread_pinned))
    (hfinalize : Win32.kaizen_reliable_frame_time_scope_finalize ndebug
        accepted_finalize last_error_finalize thread_pinned scope_open
      = some (KAIZEN_SUCCESS, thread_restored)) :
    scope_open.last_thread_affinity_mask = thread.affinity_mask ∧
      thread_restored.affinity_mask = thread.affinity_mask := by
  simp only [Win32.kaizen_reliable_frame_time_scope_init, Option.bind_eq_bind,
    Option.pure_def] at hinit
  generalize (if ideal_processor < 64 then 2 ^ ideal_processor else 0) = mask at hinit
  have hinit2 :
      (if 0 ≠ (Win32.SetThreadAffinityMask accepted_init thread mask).1 then
        some (KAIZEN_SUCCESS,
          ({ last_thread_affinity_mask :=
              (Win32.SetThreadAffinityMask accepted_init thread mask).1 } :
            Win32.kaizen_raw_reliable_frame_time_scope_s),
          (Win32.SetThreadAffinityMask accepted_init thread mask).2)
      else
        (c_assert ndebug
          (some (decide (Win32.ERROR_INVALID_PARAMETER ≠ last_error_init)))).bind
          fun _ => some (EAGAIN, scope,
            (Win32.SetThreadAffinityMask accepted_init thread mask).2))
        = some (KAIZEN_SUCCESS, scope_open, thread_pinned) := by
    by_cases hideal : 4294967295 = ideal_processor
    · rw [if_pos hideal] at hinit
      exact option_unit_bind_eq_some _ _ _ hinit
    · rw [if_neg hideal] at hinit
      exact option_unit_bind_eq_some _ _ _ hinit
  have hscope : scope_open.last_thread_affinity_mask = thread.affinity_mask := by
    by_cases hlast : 0 ≠ (Win32.SetThreadAffinityMask accepted_init thread mask).1
    · rw [if_pos hlast] at hinit2
      simp only [Option.some.injEq, Prod.mk.injEq] at hinit2
      obtain ⟨-, hs, -⟩ := hinit2
      cases accepted_init
      · simp [Win32.SetThreadAffinityMask] at hlast
      · simp only [Win32.SetThreadAffinityMask, if_true] at hs
        rw [← hs]
    · rw [if_neg hlast] at hinit2
      have h := option_unit_bind_eq_some _ _ _ hinit2
      simp at h
  refine ⟨hscope, ?_⟩
  simp only [Win32.kaizen_reliable_frame_time_scope_finalize, Option.bind_eq_bind,
    Option.pure_def] at hfinalize
  by_cases hlast : 0 ≠ (Win32.SetThreadAffinityMask accepted_finalize thread_pinned
      scope_open.last_thread_affinity_mask).1
  · rw [if_pos hlast] at hfinalize
    simp only [Option.some.injEq, Prod.mk.injEq, true_and] at hfinalize
    cases accepted_finalize
    · simp [Win32.SetThreadAffinityMask] at hlast
    · simp only [Win32.SetThreadAffinityMask, if_true] at hfinalize
      rw [← hfinalize, hscope]
  · rw [if_neg hlast] at hfinalize
    have h := option_unit_bind_eq_some _ _ _ hfinalize
    simp at h

/-- Witness of C27 in the debug build: a thread with affinity mask `15` is pinned to
processor 2 (mask `4`) by init, which records `15`, and finalize gives the thread the
mask `15` back. -/
theorem win32_scope_finalize_restores_affinity_witness :
    Win32.kaizen_reliable_frame_time_scope_init false 2 true 0
        { affinity_mask := 15 } { last_thread_affinity_mask := 0 }
        = some (KAIZEN_SUCCESS, { last_thread_affinity_mask := 15 },
            { affinity_mask := 4 }) ∧
      Win32.kaizen_reliable_frame_time_scope_finalize false true 0
        { affinity_mask := 4 } { last_thread_affinity_mask := 15 }
        = some (KAIZEN_SUCCESS, { affinity_mask := 15 }) ∧
      ({ last_thread_affinity_mask := 15 } :
        Win32.kaizen_raw_reliable_frame_time_scope_s).last_thread_affinity_mask
        = ({ affinity_mask := 15 } : Win32.thread_state).affinity_mask ∧
      ({ affinity_mask := 15 } : Win32.thread_state).affinity_mask
        = ({ affinity_mask := 15 } : Win32.thread_state).affinity_mask :=
  ⟨by decide, by decide,
    win32_scope_finalize_restores_affinity false 2 true true 0 0
      { affinity_mask := 15 } { affinity_mask := 4 } { affinity_mask := 15 }
      { last_thread_affinity_mask := 0 } { last_thread_affinity_mask := 15 }
      (by decide) (by decide)⟩

/-- C28: in the posix backend, for every pair of values `later`, `earlier` whose two
field differences fit the signed 64-bit fields, the release build of
`kaizen_frame_time_subtract (later, earlier)` returns `KAIZEN_SUCCESS` with a result `r`
such that `1_000_000_000 * r.seconds + r.nanoseconds = (1_000_000_000 * later.seconds +
later.nanoseconds) - (1_000_000_000 * earlier.seconds + earlier.nanoseconds)`, and
whatever the function returns in either build is `KAIZEN_SUCCESS` with that same `r`. -/
theorem posix_subtract_total_nanoseconds (ndebug : Bool)
    (later earlier : Posix.kaizen_raw_frame_time_s)
    (hsec : -(2 ^ 63) ≤ later.time.tv_sec - earlier.time.tv_sec ∧
      later.time.tv_sec - earlier.time.tv_sec < 2 ^ 63)
    (hnsec : -(2 ^ 63) ≤ later.time.tv_nsec - earlier.time.tv_nsec ∧
      later.time.tv_nsec - earlier.time.tv_nsec < 2 ^ 63) :
    ∃ r : Posix.kaizen_raw_frame_time_s,
      Posix.kaizen_frame_time_subtract true later earlier = some (KAIZEN_SUCCESS, r) ∧
      1000000000 * r.time.tv_sec + r.time.tv_nsec
        = (1000000000 * later.time.tv_sec + later.time.tv_nsec)
          - (1000000000 * earlier.time.tv_sec + earlier.time.tv_nsec) ∧
      (∀ returned, Posix.kaizen_frame_time_subtract ndebug later earlier = some returned →
        returned = (KAIZEN_SUCCESS, r)) := by
  have h1 : int64_wrap (later.time.tv_sec - earlier.time.tv_sec)
      = later.time.tv_sec - earlier.time.tv_sec :=
    int64_wrap_of_range _ hsec.1 hsec.2
  have h2 : int64_wrap (later.time.tv_nsec - earlier.time.tv_nsec)
      = later.time.tv_nsec - earlier.time.tv_nsec :=
    int64_wrap_of_range _ hnsec.1 hnsec.2
  refine ⟨{ time := { tv_sec := later.time.tv_sec - earlier.time.tv_sec,
                      tv_nsec := later.time.tv_nsec - earlier.time.tv_nsec } }, ?_, ?_, ?_⟩
  · simp [Posix.kaizen_frame_time_subtract, c_assert_ndebug, h1, h2]
  · simp only
    ring
  · intro returned hreturned
    simp only [Posix.kaizen_frame_time_subtract, Option.bind_eq_bind, Option.pure_def, h1,
      h2] at hreturned
    have hbody := option_unit_bind_eq_some _ _ _
      (option_unit_bind_eq_some _ _ _ (option_unit_bind_eq_some _ _ _ hreturned))
    simp only [Option.some.injEq] at hbody
    exact hbody.symm

/-- Witness of C28 at `later = (1 s, 5 ns)`, `earlier = (1 s, 2 ns)`, where the debug
build returns as well. -/
theorem posix_subtract_total_nanoseconds_witness :
    Posix.kaizen_frame_time_subtract false ⟨⟨1, 5⟩⟩ ⟨⟨1, 2⟩⟩
        = some (KAIZEN_SUCCESS, ⟨⟨0, 3⟩⟩) ∧
      ∃ r : Posix.kaizen_raw_frame_time_s,
        Posix.kaizen_frame_time_subtract true ⟨⟨1, 5⟩⟩ ⟨⟨1, 2⟩⟩ = some (KAIZEN_SUCCESS, r) ∧
        1000000000 * r.time.tv_sec + r.time.tv_nsec
          = (1000000000 * 1 + 5) - (1000000000 * 1 + 2) ∧
        (∀ returned,
          Posix.kaizen_frame_time_subtract false ⟨⟨1, 5⟩⟩ ⟨⟨1, 2⟩⟩ = some returned →
          returned = (KAIZEN_SUCCESS, r)) :=
  ⟨by decide,
    posix_subtract_total_nanoseconds false ⟨⟨1, 5⟩⟩ ⟨⟨1, 2⟩⟩ (by decide) (by decide)⟩

/-- Debug build of the posix backend: for operands that pass the validity assertion and
whose seconds leave room for the carry, `kaizen_frame_time_aggregate` aborts whenever
`rhs` has a positive seconds field: the aggregate's seconds then exceed those of `lhs`,
and the overflow assertion asks for `lhs.tv_sec ≥ aggregate.tv_sec`. -/
theorem posix_aggregate_debug_aborts_of_positive_seconds
    (lhs rhs : Posix.kaizen_raw_frame_time_s)
    (hl : Posix.kaizen_internal_timespec_is_valid lhs.time = true)
    (hr : Posix.kaizen_internal_timespec_is_valid rhs.time = true)
    (hsum : lhs.time.tv_sec + rhs.time.tv_sec + 1 < 2 ^ 63)
    (hpos : 0 < rhs.time.tv_sec) :
    Posix.kaizen_frame_time_aggregate false lhs rhs = none := by
  obtain ⟨⟨ls, ln⟩⟩ := lhs
  obtain ⟨⟨rs, rn⟩⟩ := rhs
  have hl' := hl
  have hr' := hr
  simp only [Posix.kaizen_internal_timespec_is_valid,
    Posix.KAIZEN_INTERNAL_ONE_SECOND_IN_NANOSECONDS, Bool.and_eq_true,
    decide_eq_true_eq] at hl' hr'
  simp only at hsum hpos
  have h1 : int64_wrap (ls + rs) = ls + rs := int64_wrap_of_range _ (by omega) (by omega)
  have h2 : int64_wrap (ln + rn) = ln + rn := int64_wrap_of_range _ (by omega) (by omega)
  have h3 : int64_wrap (ls + rs + 1) = ls + rs + 1 :=
    int64_wrap_of_range _ (by omega) (by omega)
  have h4 : int64_wrap (ln + rn - 1000000000) = ln + rn - 1000000000 :=
    int64_wrap_of_range _ (by omega) (by omega)
  have hge : ∀ (s n : Int), ls < s →
      c_assert false (do
        let ge_left ← Posix.kaizen_frame_time_greater_or_equal false
          { time := { tv_sec := s, tv_nsec := n } } { time := { tv_sec := ls, tv_nsec := ln } }
        if ge_left then
          Posix.kaizen_frame_time_greater_or_equal false
            { time := { tv_sec := s, tv_nsec := n } }
            { time := { tv_sec := rs, tv_nsec := rn } }
        else
          pure false) = none := by
    intro s n hs
    have hn1 : ¬ ls ≥ s := by omega
    have hn2 : ¬ ls = s := by omega
    cases hv : Posix.kaizen_internal_timespec_is_valid { tv_sec := s, tv_nsec := n } <;>
      simp [Posix.kaizen_frame_time_greater_or_equal, c_assert, hv, hl, hn1, hn2]
  have hal : c_assert false (some (Posix.kaizen_internal_timespec_is_valid
      { tv_sec := ls, tv_nsec := ln })) = some () := by
    simp only [c_assert]; simp [show Posix.kaizen_internal_timespec_is_valid
      { tv_sec := ls, tv_nsec := ln } = true from hl]
  have har : c_assert false (some (Posix.kaizen_internal_timespec_is_valid
      { tv_sec := rs, tv_nsec := rn })) = some () := by
    simp only [c_assert]; simp [show Posix.kaizen_internal_timespec_is_valid
      { tv_sec := rs, tv_nsec := rn } = true from hr]
  by_cases hc : ln + rn ≥ 1000000000
  · have habort := hge (ls + rs + 1) (ln + rn - 1000000000) (by omega)
    simp only [Posix.kaizen_frame_time_aggregate, hal, har, h1, h2, h3, h4,
      Posix.KAIZEN_INTERNAL_ONE_SECOND_IN_NANOSECONDS, hc, decide_True, if_true,
      Option.bind_eq_bind, Option.some_bind, Option.pure_def] at habort ⊢
    rw [habort]
    rfl
  · have habort := hge (ls + rs) (ln + rn) (by omega)
    simp only [Posix.kaizen_frame_time_aggregate, hal, har, h1, h2,
      Posix.KAIZEN_INTERNAL_ONE_SECOND_IN_NANOSECONDS, hc, decide_False, if_false,
      Bool.false_eq_true, Option.bind_eq_bind, Option.some_bind, Option.pure_def]
      at habort ⊢
    rw [habort]
    rfl

/-- C29 (defect of the code): at the well-formed operands `lhs = (1 s, 1 ns)` and
`rhs = (2 s, 2 ns)` nothing wraps, the sum is `(3 s, 3 ns)`, yet the overflow assertion
of `kaizen_frame_time_aggregate` fails: `kaizen_frame_time_greater_or_equal (aggregate,
lhs)` and `(aggregate, rhs)` are both false, and the debug build aborts instead of
returning the aggregate. -/
theorem posix_aggregate_overflow_assertion_fails_without_wrap :
    Posix.well_formed ⟨⟨1, 1⟩⟩ ∧ Posix.well_formed ⟨⟨2, 2⟩⟩ ∧
      Posix.kaizen_frame_time_aggregate true ⟨⟨1, 1⟩⟩ ⟨⟨2, 2⟩⟩
        = some (KAIZEN_SUCCESS, ⟨⟨3, 3⟩⟩) ∧
      Posix.kaizen_frame_time_greater_or_equal false ⟨⟨3, 3⟩⟩ ⟨⟨1, 1⟩⟩
        = some KAIZEN_FALSE ∧
      Posix.kaizen_frame_time_greater_or_equal false ⟨⟨3, 3⟩⟩ ⟨⟨2, 2⟩⟩
        = some KAIZEN_FALSE ∧
      Posix.kaizen_frame_time_aggregate false ⟨⟨1, 1⟩⟩ ⟨⟨2, 2⟩⟩ = none := by
  decide

/-- C30: in the win32 backend, for counter values `0 ≤ lhs, rhs < 2 ^ 63`, with the
`LONGLONG` addition wrapping modulo `2 ^ 64`, the expression of the overflow assertion
of `kaizen_frame_time_aggregate` (sum `≥ lhs` and sum `≥ rhs`) is true exactly when
`lhs + rhs ≤ 2 ^ 63 - 1`; with assertions checked the function returns exactly in that
case, and whatever it returns is `KAIZEN_SUCCESS` with the exact sum. -/
theorem win32_aggregate_overflow_assertion (lhs rhs : Win32.kaizen_raw_frame_time_s)
    (hl : 0 ≤ lhs.counter ∧ lhs.counter < 2 ^ 63)
    (hr : 0 ≤ rhs.counter ∧ rhs.counter < 2 ^ 63) :
    ((int64_wrap (lhs.counter + rhs.counter) ≥ lhs.counter ∧
        int64_wrap (lhs.counter + rhs.counter) ≥ rhs.counter)
        ↔ lhs.counter + rhs.counter ≤ 2 ^ 63 - 1) ∧
      ((Win32.kaizen_frame_time_aggregate false lhs rhs).isSome = true
        ↔ lhs.counter + rhs.counter ≤ 2 ^ 63 - 1) ∧
      (∀ stored, Win32.kaizen_frame_time_aggregate false lhs rhs = some stored →
        stored = (KAIZEN_SUCCESS, { counter := lhs.counter + rhs.counter })) := by
  obtain ⟨hl0, hl1⟩ := hl
  obtain ⟨hr0, hr1⟩ := hr
  have hexpr : (int64_wrap (lhs.counter + rhs.counter) ≥ lhs.counter ∧
      int64_wrap (lhs.counter + rhs.counter) ≥ rhs.counter)
      ↔ lhs.counter + rhs.counter ≤ 2 ^ 63 - 1 := by
    unfold int64_wrap
    constructor
    · intro h; omega
    · intro h; omega
  by_cases hsum : lhs.counter + rhs.counter ≤ 2 ^ 63 - 1
  · have hwrap : int64_wrap (lhs.counter + rhs.counter) = lhs.counter + rhs.counter :=
      int64_wrap_of_range _ (by omega) (by omega)
    refine ⟨hexpr, ?_, ?_⟩
    · simp [Win32.kaizen_frame_time_aggregate, c_assert, hwrap, hl0, hr0]
      omega
    · intro stored hstored
      simp [Win32.kaizen_frame_time_aggregate, c_assert, hwrap, hl0, hr0] at hstored
      exact hstored.symm
  · have hcond : (decide (int64_wrap (lhs.counter + rhs.counter) ≥ lhs.counter)
        && decide (int64_wrap (lhs.counter + rhs.counter) ≥ rhs.counter)) = false := by
      rw [Bool.and_eq_false_iff]
      left
      simp only [decide_eq_false_iff_not]
      unfold int64_wrap
      omega
    refine ⟨hexpr, ?_, ?_⟩
    · simp [Win32.kaizen_frame_time_aggregate, c_assert, hcond, hl0, hr0]
      omega
    · intro stored hstored
      simp [Win32.kaizen_frame_time_aggregate, c_assert, hcond, hl0, hr0] at hstored

/-- Witness of C30 at `lhs = 2 ^ 63 - 1`, `rhs = 1`, where the exact sum is `2 ^ 63`. -/
theorem win32_aggregate_overflow_assertion_witness :
    ((int64_wrap (9223372036854775807 + 1) ≥ 9223372036854775807 ∧
        int64_wrap (9223372036854775807 + 1) ≥ 1)
        ↔ (9223372036854775807 : Int) + 1 ≤ 2 ^ 63 - 1) ∧
      ((Win32.kaizen_frame_time_aggregate false { counter := 9223372036854775807 }
          { counter := 1 }).isSome = true
        ↔ (9223372036854775807 : Int) + 1 ≤ 2 ^ 63 - 1) ∧
      (∀ stored, Win32.kaizen_frame_time_aggregate false { counter := 9223372036854775807 }
          { counter := 1 } = some stored →
        stored = (KAIZEN_SUCCESS, { counter := 9223372036854775807 + 1 })) :=
  win32_aggregate_overflow_assertion { counter := 9223372036854775807 } { counter := 1 }
    ⟨by norm_num, by norm_num⟩ ⟨by norm_num, by norm_num⟩

/-! ## Theorems: precision assertion, validity check, classification -/

/-- The mask of the precision assertion: `((uint64_t)(-1)) << 53` is the eleven one-bits
`2 ^ 11 - 1` moved up by 53 places. -/
theorem precision_mask_eq :
    uint64_shl (2 ^ 64 - 1) Mach.DBL_MANT_DIG = (2 ^ 11 - 1) <<< 53 := by
  decide

/-- A `uint64_t` value has no bit in common with the mask of the precision assertion
exactly when it is below `2 ^ 53`. -/
theorem and_precision_mask_eq_zero_iff (ns : Nat) (hns : ns < 2 ^ 64) :
    ns &&& ((2 ^ 11 - 1) <<< 53) = 0 ↔ ns < 2 ^ 53 := by
  constructor
  · intro hzero
    apply Nat.lt_pow_two_of_testBit
    intro i hi
    by_cases h64 : i < 64
    · have hbit : (ns &&& ((2 ^ 11 - 1) <<< 53)).testBit i = false := by
        rw [hzero]; exact Nat.zero_testBit i
      rw [Nat.testBit_and, Nat.testBit_shiftLeft, Nat.testBit_two_pow_sub_one] at hbit
      have h1 : decide (i ≥ 53) = true := decide_eq_true hi
      have h2 : decide (i - 53 < 11) = true := decide_eq_true (by omega)
      rw [h1, h2] at hbit
      simpa using hbit
    · apply Nat.testBit_lt_two_pow
      calc ns < 2 ^ 64 := hns
        _ ≤ 2 ^ i := Nat.pow_le_pow_right (by decide) (by omega)
  · intro hlt
    apply Nat.eq_of_testBit_eq
    intro i
    rw [Nat.zero_testBit, Nat.testBit_and, Nat.testBit_shiftLeft]
    by_cases hi : i ≥ 53
    · have hbit : ns.testBit i = false := by
        apply Nat.testBit_lt_two_pow
        calc ns < 2 ^ 53 := hlt
          _ ≤ 2 ^ i := Nat.pow_le_pow_right (by decide) hi
      rw [hbit]; rfl
    · have h1 : decide (i ≥ 53) = false := decide_eq_false hi
      rw [h1]; simp

/-- The precision assertion expression is true exactly below `2 ^ 53`. -/
theorem precision_assertion_expression_iff (ns : Nat) (hns : ns < 2 ^ 64) :
    Mach.precision_assertion_expression ns = true ↔ ns < 2 ^ 53 := by
  unfold Mach.precision_assertion_expression
  rw [precision_mask_eq, decide_eq_true_iff]
  constructor
  · intro h; exact (and_precision_mask_eq_zero_iff ns hns).1 h.symm
  · intro h; exact ((and_precision_mask_eq_zero_iff ns hns).2 h).symm

/-- C31: in the mach backend, for a scaled nanosecond value `ns` of type `uint64_t`, the
expression of the precision assertion, `0 == (ns & ((uint64_t)(-1)) << DBL_MANT_DIG)` with
`DBL_MANT_DIG = 53`, is true exactly when `ns < 2 ^ 53`; and with assertions checked, the
timebase query succeeding and a denominator that is not zero,
`kaizen_internal_frame_time_convert_with_factor` returns exactly when the value the
integer conversion computed is below `2 ^ 53`. -/
theorem mach_precision_assertion_iff_below_two_pow_53 (ns : Nat) (hns : ns < 2 ^ 64)
    (timebase : Mach.mach_timebase_info_data_t) (time : Mach.kaizen_raw_frame_time_s)
    (conversion_factor result : ℚ) (hd : timebase.denom % 2 ^ 64 ≠ 0) :
    (Mach.precision_assertion_expression ns = true ↔ ns < 2 ^ 53) ∧
      ((Mach.kaizen_internal_frame_time_convert_with_factor false Mach.KERN_SUCCESS timebase
          time conversion_factor result).isSome = true
        ↔ uint64_mul time.interval (timebase.numer % 2 ^ 64) / (timebase.denom % 2 ^ 64)
            < 2 ^ 53) := by
  refine ⟨precision_assertion_expression_iff ns hns, ?_⟩
  have hrange :
      uint64_mul time.interval (timebase.numer % 2 ^ 64) / (timebase.denom % 2 ^ 64)
        < 2 ^ 64 := by
    have h1 : uint64_mul time.interval (timebase.numer % 2 ^ 64) < 2 ^ 64 := by
      unfold uint64_mul
      exact Nat.mod_lt _ (by norm_num)
    exact Nat.lt_of_le_of_lt (Nat.div_le_self _ _) h1
  have hexpr := precision_assertion_expression_iff _ hrange
  simp only [Mach.kaizen_internal_frame_time_convert_with_factor,
    Mach.kaizen_internal_frame_time_convert_to_nanoseconds_uint64,
    Option.bind_eq_bind, Option.some_bind, Option.pure_def, if_true, if_neg hd]
  by_cases hlt :
      uint64_mul time.interval (timebase.numer % 2 ^ 64) / (timebase.denom % 2 ^ 64)
        < 2 ^ 53
  · have hpass := hexpr.2 hlt
    simp only [c_assert, hpass, Bool.false_eq_true, if_false, Option.some_bind,
      Option.isSome_some, true_iff]
    exact hlt
  · have hfail : Mach.precision_assertion_expression
        (uint64_mul time.interval (timebase.numer % 2 ^ 64) / (timebase.denom % 2 ^ 64))
        = false := by
      cases h : Mach.precision_assertion_expression
        (uint64_mul time.interval (timebase.numer % 2 ^ 64) / (timebase.denom % 2 ^ 64))
      · rfl
      · exact absurd (hexpr.1 h) hlt
    simp only [c_assert, hfail, Bool.false_eq_true, if_false, Option.none_bind,
      Option.isSome_none, false_iff]
    exact hlt

/-- Witness of C31 at `ns = 2 ^ 53`, the first value the assertion rejects, reached with
the ratio `1 / 1` and `2 ^ 53` ticks. -/
theorem mach_precision_assertion_iff_below_two_pow_53_witness :
    (Mach.precision_assertion_expression 9007199254740992 = true
        ↔ 9007199254740992 < 2 ^ 53) ∧
      ((Mach.kaizen_internal_frame_time_convert_with_factor false Mach.KERN_SUCCESS
          { numer := 1, denom := 1 } { interval := 9007199254740992 } 1 0).isSome = true
        ↔ uint64_mul 9007199254740992 (1 % 2 ^ 64) / (1 % 2 ^ 64) < 2 ^ 53) :=
  mach_precision_assertion_iff_below_two_pow_53 9007199254740992 (by norm_num)
    { numer := 1, denom := 1 } { interval := 9007199254740992 } 1 0 (by decide)

/-- What the posix validity check accepts: non-negative seconds and nanoseconds strictly
between `0` and `1_000_000_000`. -/
theorem posix_timespec_is_valid_iff (time : Posix.timespec) :
    Posix.kaizen_internal_timespec_is_valid time = true
      ↔ 0 ≤ time.tv_sec ∧ 0 < time.tv_nsec ∧ time.tv_nsec < 1000000000 := by
  simp only [Posix.kaizen_internal_timespec_is_valid,
    Posix.KAIZEN_INTERNAL_ONE_SECOND_IN_NANOSECONDS, Bool.and_eq_true, decide_eq_true_eq]
  constructor
  · rintro ⟨⟨h1, h2⟩, h3⟩; exact ⟨h1, h3, h2⟩
  · rintro ⟨h1, h3, h2⟩; exact ⟨⟨h1, h2⟩, h3⟩

/-- C32 (defect of the code): `kaizen_internal_timespec_is_valid` tests `tv_nsec > 0`
and so rejects values of the documented data model: the zero constant
`KAIZEN_RAW_FRAME_TIME_ZERO = (0 s, 0 ns)` and the value `(5 s, 0 ns)` are well-formed
and the check returns false for both. -/
theorem posix_timespec_is_valid_rejects_zero_nanoseconds :
    Posix.well_formed Posix.KAIZEN_RAW_FRAME_TIME_ZERO ∧
      Posix.kaizen_internal_timespec_is_valid Posix.KAIZEN_RAW_FRAME_TIME_ZERO.time
        = KAIZEN_FALSE ∧
      Posix.well_formed ⟨⟨5, 0⟩⟩ ∧
      Posix.kaizen_internal_timespec_is_valid ⟨5, 0⟩ = KAIZEN_FALSE ∧
      Posix.kaizen_internal_timespec_is_valid ⟨5, 1⟩ = KAIZEN_TRUE := by
  decide

/-- C33: in the win32 backend, when the frequency query succeeds,
`kaizen_frame_time_query_resolution` returns `KAIZEN_SUCCESS` and writes seconds for a
frequency `f < 1000`, milliseconds for `1000 ≤ f < 1_000_000`, microseconds for
`1_000_000 ≤ f < 1_000_000_000`, nanoseconds for `f ≥ 1_000_000_000`. With the
enumerators ordered by their value (nanoseconds the smallest of the four, seconds the
largest), a frequency `g ≥ f` is never given a larger enumerator than `f`, and what is
written lies between nanoseconds and seconds. -/
theorem win32_query_resolution_classification (ndebug : Bool)
    (errc f g : Int) (resolution : kaizen_frame_time_resolution_t)
    (hok : errc ≠ Win32.FALSE) (hfg : f ≤ g) :
    ∃ wf wg,
      Win32.kaizen_frame_time_query_resolution ndebug errc f resolution
        = some (KAIZEN_SUCCESS, wf) ∧
      Win32.kaizen_frame_time_query_resolution ndebug errc g resolution
        = some (KAIZEN_SUCCESS, wg) ∧
      (f < 1000 → wf = kaizen_seconds_frame_time_resolution) ∧
      (1000 ≤ f ∧ f < 1000000 → wf = kaizen_milliseconds_frame_time_resolution) ∧
      (1000000 ≤ f ∧ f < 1000000000 → wf = kaizen_microseconds_frame_time_resolution) ∧
      (1000000000 ≤ f → wf = kaizen_nanoseconds_frame_time_resolution) ∧
      wg.value ≤ wf.value ∧
      kaizen_nanoseconds_frame_time_resolution.value ≤ wf.value ∧
      wf.value ≤ kaizen_seconds_frame_time_resolution.value := by
  have hne : Win32.FALSE ≠ errc := fun h => hok h.symm
  refine ⟨(if 1000 > f then kaizen_seconds_frame_time_resolution
      else if 1000000 > f then kaizen_milliseconds_frame_time_resolution
      else if 1000000000 > f then kaizen_microseconds_frame_time_resolution
      else kaizen_nanoseconds_frame_time_resolution),
    (if 1000 > g then kaizen_seconds_frame_time_resolution
      else if 1000000 > g then kaizen_milliseconds_frame_time_resolution
      else if 1000000000 > g then kaizen_microseconds_frame_time_resolution
      else kaizen_nanoseconds_frame_time_resolution),
    by simp only [Win32.kaizen_frame_time_query_resolution, hne, ne_eq,
      not_false_eq_true, if_true],
    by simp only [Win32.kaizen_frame_time_query_resolution, hne, ne_eq,
      not_false_eq_true, if_true], ?_, ?_, ?_, ?_, ?_, ?_, ?_⟩
  · intro h
    simp only [gt_iff_lt, h, if_true]
  · rintro ⟨h1, h2⟩
    have : ¬ f < 1000 := by omega
    simp only [gt_iff_lt, this, h2, if_true, if_false]
  · rintro ⟨h1, h2⟩
    have h3 : ¬ f < 1000 := by omega
    have h4 : ¬ f < 1000000 := by omega
    simp only [gt_iff_lt, h3, h4, h2, if_true, if_false]
  · intro h1
    have h3 : ¬ f < 1000 := by omega
    have h4 : ¬ f < 1000000 := by omega
    have h5 : ¬ f < 1000000000 := by omega
    simp only [gt_iff_lt, h3, h4, h5, if_false]
  · simp only [gt_iff_lt]
    split_ifs <;> simp only [kaizen_frame_time_resolution_t.value] <;> omega
  · simp only [gt_iff_lt]
    split_ifs <;> simp only [kaizen_frame_time_resolution_t.value] <;> omega
  · simp only [gt_iff_lt]
    split_ifs <;> simp only [kaizen_frame_time_resolution_t.value] <;> omega

/-- Witness of C33 at the frequencies 3579545 Hz and 2400000000 Hz. -/
theorem win32_query_resolution_classification_witness :
    ∃ wf wg,
      Win32.kaizen_frame_time_query_resolution false 1 3579545
          kaizen_unknown_frame_time_resolution
        = some (KAIZEN_SUCCESS, wf) ∧
      Win32.kaizen_frame_time_query_resolution false 1 2400000000
          kaizen_unknown_frame_time_resolution
        = some (KAIZEN_SUCCESS, wg) ∧
      ((3579545 : Int) < 1000 → wf = kaizen_seconds_frame_time_resolution) ∧
      ((1000 : Int) ≤ 3579545 ∧ (3579545 : Int) < 1000000 →
        wf = kaizen_milliseconds_frame_time_resolution) ∧
      ((1000000 : Int) ≤ 3579545 ∧ (3579545 : Int) < 1000000000 →
        wf = kaizen_microseconds_frame_time_resolution) ∧
      ((1000000000 : Int) ≤ 3579545 → wf = kaizen_nanoseconds_frame_time_resolution) ∧
      wg.value ≤ wf.value ∧
      kaizen_nanoseconds_frame_time_resolution.value ≤ wf.value ∧
      wf.value ≤ kaizen_seconds_frame_time_resolution.value :=
  win32_query_resolution_classification false 1 3579545 2400000000
    kaizen_unknown_frame_time_resolution (by decide) (by decide)

/-- C34: in the win32 backend, for counter values `0 ≤ one, two < 2 ^ 63`,
`kaizen_frame_time_difference (one, two)` returns what `kaizen_frame_time_subtract`
returns on the larger and the smaller of the two, namely `KAIZEN_SUCCESS` with
`|one - two|`, which is non-negative; the subtraction stays inside the signed 64-bit
range, so the stored value is the exact difference. With assertions checked or not. -/
theorem win32_difference_is_subtract_of_max_min (ndebug : Bool)
    (one two : Win32.kaizen_raw_frame_time_s)
    (hone : 0 ≤ one.counter ∧ one.counter < 2 ^ 63)
    (htwo : 0 ≤ two.counter ∧ two.counter < 2 ^ 63) :
    Win32.kaizen_frame_time_difference ndebug one two
        = Win32.kaizen_frame_time_subtract ndebug
            { counter := max one.counter two.counter }
            { counter := min one.counter two.counter } ∧
      Win32.kaizen_frame_time_difference ndebug one two
        = some (KAIZEN_SUCCESS, { counter := |one.counter - two.counter| }) ∧
      0 ≤ |one.counter - two.counter| ∧
      |one.counter - two.counter| < 2 ^ 63 ∧
      int64_wrap (max one.counter two.counter - min one.counter two.counter)
        = max one.counter two.counter - min one.counter two.counter := by
  obtain ⟨h1, h2⟩ := hone
  obtain ⟨h3, h4⟩ := htwo
  have habs : |one.counter - two.counter|
      = max one.counter two.counter - min one.counter two.counter := by
    rcases le_total one.counter two.counter with h | h
    · rw [abs_of_nonpos (by omega), max_eq_right h, min_eq_left h]; omega
    · rw [abs_of_nonneg (by omega), max_eq_left h, min_eq_right h]
  have hwrap : int64_wrap (max one.counter two.counter - min one.counter two.counter)
      = max one.counter two.counter - min one.counter two.counter :=
    int64_wrap_of_range _ (by omega) (by omega)
  have hdiff : Win32.kaizen_frame_time_difference ndebug one two
      = some (KAIZEN_SUCCESS,
          { counter := max one.counter two.counter - min one.counter two.counter }) := by
    rcases le_total one.counter two.counter with h | h
    · have hw : int64_wrap (two.counter - one.counter) = two.counter - one.counter :=
        int64_wrap_of_range _ (by omega) (by omega)
      by_cases heq : one.counter ≥ two.counter
      · have he : one.counter = two.counter := by omega
        cases ndebug <;>
          simp [Win32.kaizen_frame_time_difference, c_assert, h1, h3, he, int64_wrap]
      · cases ndebug <;>
          simp [Win32.kaizen_frame_time_difference, c_assert, h1, h3, heq, hw,
            max_eq_right h, min_eq_left h]
    · have hw : int64_wrap (one.counter - two.counter) = one.counter - two.counter :=
        int64_wrap_of_range _ (by omega) (by omega)
      cases ndebug <;>
        simp [Win32.kaizen_frame_time_difference, c_assert, h1, h3, h, hw,
          max_eq_left h, min_eq_right h]
  have hsub : Win32.kaizen_frame_time_subtract ndebug
      { counter := max one.counter two.counter }
      { counter := min one.counter two.counter }
      = some (KAIZEN_SUCCESS,
          { counter := max one.counter two.counter - min one.counter two.counter }) := by
    have hmax : 0 ≤ max one.counter two.counter := by omega
    have hmin : 0 ≤ min one.counter two.counter := by omega
    have hle : min one.counter two.counter ≤ max one.counter two.counter := by omega
    cases ndebug <;>
      simp [Win32.kaizen_frame_time_subtract, c_assert, hwrap, hmax, hmin, hle]
  refine ⟨by rw [hdiff, hsub], by rw [hdiff, habs], abs_nonneg _, ?_, hwrap⟩
  rw [habs]; omega

/-- Witness of C34 in the debug build at `one = 3`, `two = 10`. -/
theorem win32_difference_is_subtract_of_max_min_witness :
    Win32.kaizen_frame_time_difference false { counter := 3 } { counter := 10 }
        = Win32.kaizen_frame_time_subtract false
            { counter := max (3 : Int) 10 } { counter := min (3 : Int) 10 } ∧
      Win32.kaizen_frame_time_difference false { counter := 3 } { counter := 10 }
        = some (KAIZEN_SUCCESS, { counter := |(3 : Int) - 10| }) ∧
      0 ≤ |(3 : Int) - 10| ∧
      |(3 : Int) - 10| < 2 ^ 63 ∧
      int64_wrap (max (3 : Int) 10 - min (3 : Int) 10) = max (3 : Int) 10 - min (3 : Int) 10 :=
  win32_difference_is_subtract_of_max_min false { counter := 3 } { counter := 10 }
    ⟨by norm_num, by norm_num⟩ ⟨by norm_num, by norm_num⟩

/-! ## Theorems: mach conversions, posix difference and aggregate, round trips -/

/-- Mach conversion with a factor when the timebase query fails: the integer conversion
reports `EAGAIN`, no assertion is evaluated, and the output is left as it was. -/
theorem mach_convert_with_factor_failure (ndebug : Bool) (timebase_errc : Int)
    (timebase : Mach.mach_timebase_info_data_t) (time : Mach.kaizen_raw_frame_time_s)
    (conversion_factor result : ℚ) (hfail : timebase_errc ≠ Mach.KERN_SUCCESS) :
    Mach.kaizen_internal_frame_time_convert_with_factor ndebug timebase_errc timebase time
      conversion_factor result = some (EAGAIN, result) := by
  have hne : ¬ (Mach.KERN_SUCCESS = timebase_errc) := fun h => hfail h.symm
  simp [Mach.kaizen_internal_frame_time_convert_with_factor,
    Mach.kaizen_internal_frame_time_convert_to_nanoseconds_uint64, hne]

/-- Mach conversion with a factor when the timebase query succeeds, the denominator is
not zero and the integer nanosecond value is below `2 ^ 53`: the division does not trap,
the precision assertion holds and the call returns `KAIZEN_SUCCESS` with the factor times
that value. -/
theorem mach_convert_with_factor_success (ndebug : Bool)
    (timebase : Mach.mach_timebase_info_data_t) (time : Mach.kaizen_raw_frame_time_s)
    (conversion_factor result : ℚ) (hd : timebase.denom % 2 ^ 64 ≠ 0)
    (hprecise :
      uint64_mul time.interval (timebase.numer % 2 ^ 64) / (timebase.denom % 2 ^ 64)
        < 2 ^ 53) :
    Mach.kaizen_internal_frame_time_convert_with_factor ndebug Mach.KERN_SUCCESS timebase
      time conversion_factor result
      = some (KAIZEN_SUCCESS, conversion_factor *
          ((uint64_mul time.interval (timebase.numer % 2 ^ 64)
            / (timebase.denom % 2 ^ 64) : Nat) : ℚ)) := by
  have hpass := (precision_assertion_expression_iff _ (by omega)).2 hprecise
  have hassert : c_assert ndebug (some (Mach.precision_assertion_expression
      (uint64_mul time.interval (timebase.numer % 2 ^ 64) / (timebase.denom % 2 ^ 64))))
      = some () := by
    cases ndebug
    · simp only [c_assert, hpass, Bool.false_eq_true, if_false]
    · rfl
  simp only [Mach.kaizen_internal_frame_time_convert_with_factor,
    Mach.kaizen_internal_frame_time_convert_to_nanoseconds_uint64, Option.bind_eq_bind,
    Option.some_bind, Option.pure_def, if_true, if_neg hd, hassert]

/-- C35: in the mach backend, when the timebase query fails, each of the four
`kaizen_frame_time_convert_to_...` functions returns `EAGAIN`, which is not
`KAIZEN_SUCCESS`, without aborting and with the output as the caller had it, whatever the
timebase structure holds; when the query succeeds with a denominator that is not zero and
the scaled value is below `2 ^ 53`, each returns `KAIZEN_SUCCESS`. With assertions checked
or not. -/
theorem mach_convert_failure_and_success (ndebug : Bool) (timebase_errc : Int)
    (timebase_failed timebase : Mach.mach_timebase_info_data_t)
    (time : Mach.kaizen_raw_frame_time_s) (result : ℚ)
    (hfail : timebase_errc ≠ Mach.KERN_SUCCESS)
    (hd : timebase.denom % 2 ^ 64 ≠ 0)
    (hprecise :
      uint64_mul time.interval (timebase.numer % 2 ^ 64) / (timebase.denom % 2 ^ 64)
        < 2 ^ 53) :
    (Mach.kaizen_frame_time_convert_to_nanoseconds ndebug timebase_errc timebase_failed
        time result = some (EAGAIN, result) ∧
      Mach.kaizen_frame_time_convert_to_microseconds ndebug timebase_errc timebase_failed
        time result = some (EAGAIN, result) ∧
      Mach.kaizen_frame_time_convert_to_milliseconds ndebug timebase_errc timebase_failed
        time result = some (EAGAIN, result) ∧
      Mach.kaizen_frame_time_convert_to_seconds ndebug timebase_errc timebase_failed
        time result = some (EAGAIN, result) ∧
      EAGAIN ≠ KAIZEN_SUCCESS) ∧
    (∃ ns us ms s : ℚ,
      Mach.kaizen_frame_time_convert_to_nanoseconds ndebug Mach.KERN_SUCCESS timebase
        time result = some (KAIZEN_SUCCESS, ns) ∧
      Mach.kaizen_frame_time_convert_to_microseconds ndebug Mach.KERN_SUCCESS timebase
        time result = some (KAIZEN_SUCCESS, us) ∧
      Mach.kaizen_frame_time_convert_to_milliseconds ndebug Mach.KERN_SUCCESS timebase
        time result = some (KAIZEN_SUCCESS, ms) ∧
      Mach.kaizen_frame_time_convert_to_seconds ndebug Mach.KERN_SUCCESS timebase
        time result = some (KAIZEN_SUCCESS, s)) :=
  ⟨⟨mach_convert_with_factor_failure ndebug timebase_errc timebase_failed time _ result hfail,
    mach_convert_with_factor_failure ndebug timebase_errc timebase_failed time _ result hfail,
    mach_convert_with_factor_failure ndebug timebase_errc timebase_failed time _ result hfail,
    mach_convert_with_factor_failure ndebug timebase_errc timebase_failed time _ result hfail,
    by decide⟩,
   ⟨_, _, _, _,
    mach_convert_with_factor_success ndebug timebase time _ result hd hprecise,
    mach_convert_with_factor_success ndebug timebase time _ result hd hprecise,
    mach_convert_with_factor_success ndebug timebase time _ result hd hprecise,
    mach_convert_with_factor_success ndebug timebase time _ result hd hprecise⟩⟩

/-- Witness of C35 in the debug build: a failing query (code 5) with the output holding
7, and the ratio `125 / 3` with 1000 ticks. -/
theorem mach_convert_failure_and_success_witness :
    (Mach.kaizen_frame_time_convert_to_nanoseconds false 5 { numer := 0, denom := 0 }
        { interval := 1000 } 7 = some (EAGAIN, 7) ∧
      Mach.kaizen_frame_time_convert_to_microseconds false 5 { numer := 0, denom := 0 }
        { interval := 1000 } 7 = some (EAGAIN, 7) ∧
      Mach.kaizen_frame_time_convert_to_milliseconds false 5 { numer := 0, denom := 0 }
        { interval := 1000 } 7 = some (EAGAIN, 7) ∧
      Mach.kaizen_frame_time_convert_to_seconds false 5 { numer := 0, denom := 0 }
        { interval := 1000 } 7 = some (EAGAIN, 7) ∧
      EAGAIN ≠ KAIZEN_SUCCESS) ∧
    (∃ ns us ms s : ℚ,
      Mach.kaizen_frame_time_convert_to_nanoseconds false Mach.KERN_SUCCESS
        { numer := 125, denom := 3 } { interval := 1000 } 7 = some (KAIZEN_SUCCESS, ns) ∧
      Mach.kaizen_frame_time_convert_to_microseconds false Mach.KERN_SUCCESS
        { numer := 125, denom := 3 } { interval := 1000 } 7 = some (KAIZEN_SUCCESS, us) ∧
      Mach.kaizen_frame_time_convert_to_milliseconds false Mach.KERN_SUCCESS
        { numer := 125, denom := 3 } { interval := 1000 } 7 = some (KAIZEN_SUCCESS, ms) ∧
      Mach.kaizen_frame_time_convert_to_seconds false Mach.KERN_SUCCESS
        { numer := 125, denom := 3 } { interval := 1000 } 7 = some (KAIZEN_SUCCESS, s)) :=
  mach_convert_failure_and_success false 5 { numer := 0, denom := 0 }
    { numer := 125, denom := 3 } { interval := 1000 } 7 (by decide) (by decide)
    (by decide)

/-- The operand assertions of the posix predicates pass with `NDEBUG` or on an operand
that `kaizen_internal_timespec_is_valid` accepts. -/
theorem posix_valid_assert_passes (ndebug : Bool) (time : Posix.timespec)
    (h : ndebug = true ∨ Posix.kaizen_internal_timespec_is_valid time = true) :
    c_assert ndebug (some (Posix.kaizen_internal_timespec_is_valid time)) = some () := by
  rcases h with h | h
  · subst h; rfl
  · cases ndebug
    · simp only [c_assert, h, Bool.false_eq_true, if_false]
    · rfl

/-- What the posix `kaizen_frame_time_greater_or_equal` returns on a call that gets past
its operand assertions: whether `lhs.tv_sec ≤ rhs.tv_sec`. -/
theorem posix_greater_or_equal_value (ndebug : Bool)
    (lhs rhs : Posix.kaizen_raw_frame_time_s)
    (hl : ndebug = true ∨ Posix.kaizen_internal_timespec_is_valid lhs.time = true)
    (hr : ndebug = true ∨ Posix.kaizen_internal_timespec_is_valid rhs.time = true) :
    Posix.kaizen_frame_time_greater_or_equal ndebug lhs rhs
      = some (decide (lhs.time.tv_sec ≤ rhs.time.tv_sec)) := by
  simp only [Posix.kaizen_frame_time_greater_or_equal, posix_valid_assert_passes ndebug _ hl,
    posix_valid_assert_passes ndebug _ hr, Option.pure_def, Option.bind_eq_bind,
    Option.some_bind, Option.some.injEq]
  by_cases h : lhs.time.tv_sec ≤ rhs.time.tv_sec
  · simp [h]
  · have h2 : ¬ rhs.time.tv_sec = lhs.time.tv_sec := by omega
    simp [h, h2]

/-- C36: in the posix backend, on a call of `kaizen_frame_time_difference (one, two)`
that gets past the operand assertions (built with `NDEBUG`, or both operands accepted by
`kaizen_internal_timespec_is_valid`), the ordering assertion of the
`kaizen_frame_time_subtract` call it delegates to holds in whichever branch is taken:
with `ge` the value of `kaizen_frame_time_greater_or_equal (one, two)`, the comparison
of the delegated operands is true, and `kaizen_frame_time_difference` returns
`KAIZEN_SUCCESS` instead of aborting. -/
theorem posix_difference_never_trips_ordering_assertion (ndebug : Bool)
    (one two : Posix.kaizen_raw_frame_time_s)
    (hpre : ndebug = true ∨
      (Posix.kaizen_internal_timespec_is_valid one.time = true ∧
        Posix.kaizen_internal_timespec_is_valid two.time = true)) :
    ∃ ge stored,
      Posix.kaizen_frame_time_greater_or_equal ndebug one two = some ge ∧
      Posix.kaizen_frame_time_greater_or_equal ndebug
          (if ge = KAIZEN_TRUE then one else two) (if ge = KAIZEN_TRUE then two else one)
        = some KAIZEN_TRUE ∧
      Posix.kaizen_frame_time_difference ndebug one two = some (KAIZEN_SUCCESS, stored) ∧
      Posix.kaizen_frame_time_subtract ndebug
          (if ge = KAIZEN_TRUE then one else two) (if ge = KAIZEN_TRUE then two else one)
        = some (KAIZEN_SUCCESS, stored) := by
  have hone : ndebug = true ∨ Posix.kaizen_internal_timespec_is_valid one.time = true :=
    hpre.imp id And.left
  have htwo : ndebug = true ∨ Posix.kaizen_internal_timespec_is_valid two.time = true :=
    hpre.imp id And.right
  have hge := posix_greater_or_equal_value ndebug one two hone htwo
  have hge' := posix_greater_or_equal_value ndebug two one htwo hone
  have hsub : ∀ later earlier : Posix.kaizen_raw_frame_time_s,
      (ndebug = true ∨ Posix.kaizen_internal_timespec_is_valid later.time = true) →
      (ndebug = true ∨ Posix.kaizen_internal_timespec_is_valid earlier.time = true) →
      Posix.kaizen_frame_time_greater_or_equal ndebug later earlier = some KAIZEN_TRUE →
      Posix.kaizen_frame_time_subtract ndebug later earlier
        = some (KAIZEN_SUCCESS,
            { time := { tv_sec := int64_wrap (later.time.tv_sec - earlier.time.tv_sec),
                        tv_nsec := int64_wrap (later.time.tv_nsec - earlier.time.tv_nsec) } }) := by
    intro later earlier hl he hcmp
    have hord : c_assert ndebug
        ((Posix.kaizen_frame_time_greater_or_equal ndebug later earlier).map
          (fun ge => KAIZEN_TRUE == ge)) = some () := by
      rw [hcmp]
      cases ndebug <;> rfl
    simp only [Posix.kaizen_frame_time_subtract, hord, posix_valid_assert_passes ndebug _ hl,
      posix_valid_assert_passes ndebug _ he, Option.pure_def, Option.bind_eq_bind,
      Option.some_bind]
  by_cases hle : one.time.tv_sec ≤ two.time.tv_sec
  · have hv : Posix.kaizen_frame_time_greater_or_equal ndebug one two = some KAIZEN_TRUE := by
      rw [hge]; simp [hle, KAIZEN_TRUE]
    refine ⟨KAIZEN_TRUE, _, hv, by simpa using hv, ?_, by simpa using hsub one two hone htwo hv⟩
    simp only [Posix.kaizen_frame_time_difference, posix_valid_assert_passes ndebug _ hone,
      posix_valid_assert_passes ndebug _ htwo, hv, Option.pure_def, Option.bind_eq_bind,
      Option.some_bind, beq_self_eq_true, if_true]
    exact hsub one two hone htwo hv
  · have hv : Posix.kaizen_frame_time_greater_or_equal ndebug one two = some KAIZEN_FALSE := by
      rw [hge]; simp [hle, KAIZEN_FALSE]
    have hv' : Posix.kaizen_frame_time_greater_or_equal ndebug two one = some KAIZEN_TRUE := by
      rw [hge']
      have : two.time.tv_sec ≤ one.time.tv_sec := by omega
      simp [this, KAIZEN_TRUE]
    have hne : ¬ (KAIZEN_FALSE = KAIZEN_TRUE) := by decide
    refine ⟨KAIZEN_FALSE, _, hv, by simpa [hne] using hv', ?_,
      by simpa [hne] using hsub two one htwo hone hv'⟩
    have hbeq : (KAIZEN_TRUE == KAIZEN_FALSE) = false := by decide
    simp only [Posix.kaizen_frame_time_difference, posix_valid_assert_passes ndebug _ hone,
      posix_valid_assert_passes ndebug _ htwo, hv, Option.pure_def, Option.bind_eq_bind,
      Option.some_bind, hbeq, Bool.false_eq_true, if_false]
    exact hsub two one htwo hone hv'

/-- Witness of C36 in the debug build at `one = (2 s, 1 ns)`, `two = (1 s, 5 ns)`, where
the second branch is taken. -/
theorem posix_difference_never_trips_ordering_assertion_witness :
    ∃ ge stored,
      Posix.kaizen_frame_time_greater_or_equal false ⟨⟨2, 1⟩⟩ ⟨⟨1, 5⟩⟩ = some ge ∧
      Posix.kaizen_frame_time_greater_or_equal false
          (if ge = KAIZEN_TRUE then ⟨⟨2, 1⟩⟩ else ⟨⟨1, 5⟩⟩)
          (if ge = KAIZEN_TRUE then ⟨⟨1, 5⟩⟩ else ⟨⟨2, 1⟩⟩)
        = some KAIZEN_TRUE ∧
      Posix.kaizen_frame_time_difference false ⟨⟨2, 1⟩⟩ ⟨⟨1, 5⟩⟩
        = some (KAIZEN_SUCCESS, stored) ∧
      Posix.kaizen_frame_time_subtract false
          (if ge = KAIZEN_TRUE then ⟨⟨2, 1⟩⟩ else ⟨⟨1, 5⟩⟩)
          (if ge = KAIZEN_TRUE then ⟨⟨1, 5⟩⟩ else ⟨⟨2, 1⟩⟩)
        = some (KAIZEN_SUCCESS, stored) :=
  posix_difference_never_trips_ordering_assertion false ⟨⟨2, 1⟩⟩ ⟨⟨1, 5⟩⟩
    (Or.inr ⟨by decide, by decide⟩)

/-- The field arithmetic of the posix `kaizen_frame_time_aggregate` (the release build)
on operands whose nanoseconds lie in `[0, 1_000_000_000)`: the seconds are added, with
one more on a carry, and the nanoseconds are added, less `1_000_000_000` on a carry. -/
theorem posix_release_aggregate_fields (lhs rhs : Posix.kaizen_raw_frame_time_s)
    (hl : 0 ≤ lhs.time.tv_nsec ∧ lhs.time.tv_nsec < 1000000000)
    (hr : 0 ≤ rhs.time.tv_nsec ∧ rhs.time.tv_nsec < 1000000000) :
    Posix.kaizen_frame_time_aggregate true lhs rhs
      = some (KAIZEN_SUCCESS,
          { time :=
            { tv_sec :=
                if lhs.time.tv_nsec + rhs.time.tv_nsec ≥ 1000000000
                then int64_wrap (int64_wrap (lhs.time.tv_sec + rhs.time.tv_sec) + 1)
                else int64_wrap (lhs.time.tv_sec + rhs.time.tv_sec),
              tv_nsec :=
                if lhs.time.tv_nsec + rhs.time.tv_nsec ≥ 1000000000
                then lhs.time.tv_nsec + rhs.time.tv_nsec - 1000000000
                else lhs.time.tv_nsec + rhs.time.tv_nsec } }) := by
  have h2 : int64_wrap (lhs.time.tv_nsec + rhs.time.tv_nsec)
      = lhs.time.tv_nsec + rhs.time.tv_nsec :=
    int64_wrap_of_range _ (by omega) (by omega)
  have h4 : int64_wrap (lhs.time.tv_nsec + rhs.time.tv_nsec - 1000000000)
      = lhs.time.tv_nsec + rhs.time.tv_nsec - 1000000000 :=
    int64_wrap_of_range _ (by omega) (by omega)
  by_cases hc : lhs.time.tv_nsec + rhs.time.tv_nsec ≥ 1000000000
  · simp [Posix.kaizen_frame_time_aggregate, c_assert_ndebug, h2, h4,
      Posix.KAIZEN_INTERNAL_ONE_SECOND_IN_NANOSECONDS, hc]
  · simp [Posix.kaizen_frame_time_aggregate, c_assert_ndebug, h2,
      Posix.KAIZEN_INTERNAL_ONE_SECOND_IN_NANOSECONDS, hc]

/-- C37: in the posix backend, on well-formed values, the field arithmetic of
`kaizen_frame_time_aggregate` (the function without its assertions, as built with
`NDEBUG`) is commutative and associative: `aggregate (a, b)` and `aggregate (b, a)`
return the same value `ab`, and with `bc` the value of `aggregate (b, c)`,
`aggregate (ab, c)` and `aggregate (a, bc)` return the same value. -/
theorem posix_aggregate_commutative_associative (a b c : Posix.kaizen_raw_frame_time_s)
    (ha : Posix.well_formed a) (hb : Posix.well_formed b) (hc : Posix.well_formed c) :
    ∃ ab bc abc,
      Posix.kaizen_frame_time_aggregate true a b = some (KAIZEN_SUCCESS, ab) ∧
      Posix.kaizen_frame_time_aggregate true b a = some (KAIZEN_SUCCESS, ab) ∧
      Posix.kaizen_frame_time_aggregate true b c = some (KAIZEN_SUCCESS, bc) ∧
      Posix.kaizen_frame_time_aggregate true ab c = some (KAIZEN_SUCCESS, abc) ∧
      Posix.kaizen_frame_time_aggregate true a bc = some (KAIZEN_SUCCESS, abc) := by
  obtain ⟨⟨as, an⟩⟩ := a
  obtain ⟨⟨bs, bn⟩⟩ := b
  obtain ⟨⟨cs, cn⟩⟩ := c
  simp only [Posix.well_formed] at ha hb hc
  have hab := posix_release_aggregate_fields ⟨⟨as, an⟩⟩ ⟨⟨bs, bn⟩⟩ ⟨ha.2.2.1, ha.2.2.2⟩
    ⟨hb.2.2.1, hb.2.2.2⟩
  have hba := posix_release_aggregate_fields ⟨⟨bs, bn⟩⟩ ⟨⟨as, an⟩⟩ ⟨hb.2.2.1, hb.2.2.2⟩
    ⟨ha.2.2.1, ha.2.2.2⟩
  have hbc := posix_release_aggregate_fields ⟨⟨bs, bn⟩⟩ ⟨⟨cs, cn⟩⟩ ⟨hb.2.2.1, hb.2.2.2⟩
    ⟨hc.2.2.1, hc.2.2.2⟩
  simp only at hab hba hbc
  refine ⟨_, _, _, hab, ?_, hbc, posix_release_aggregate_fields _ ⟨⟨cs, cn⟩⟩ ?_
    ⟨hc.2.2.1, hc.2.2.2⟩, ?_⟩
  · rw [hba]
    have h1 : bn + an = an + bn := by omega
    have h2 : bs + as = as + bs := by omega
    rw [h1, h2]
  · simp only
    split_ifs <;> omega
  · rw [posix_release_aggregate_fields ⟨⟨as, an⟩⟩ _ ⟨ha.2.2.1, ha.2.2.2⟩
      (by simp only; split_ifs <;> omega)]
    simp only [Option.some.injEq, Prod.mk.injEq, true_and,
      Posix.kaizen_raw_frame_time_s.mk.injEq, Posix.timespec.mk.injEq]
    unfold int64_wrap
    constructor <;> split_ifs <;> omega

/-- Witness of C37 at `a = (1 s, 600_000_000 ns)`, `b = (2 s, 700_000_000 ns)`,
`c = (3 s, 800_000_000 ns)`, where carries occur. -/
theorem posix_aggregate_commutative_associative_witness :
    ∃ ab bc abc,
      Posix.kaizen_frame_time_aggregate true ⟨⟨1, 600000000⟩⟩ ⟨⟨2, 700000000⟩⟩
        = some (KAIZEN_SUCCESS, ab) ∧
      Posix.kaizen_frame_time_aggregate true ⟨⟨2, 700000000⟩⟩ ⟨⟨1, 600000000⟩⟩
        = some (KAIZEN_SUCCESS, ab) ∧
      Posix.kaizen_frame_time_aggregate true ⟨⟨2, 700000000⟩⟩ ⟨⟨3, 800000000⟩⟩
        = some (KAIZEN_SUCCESS, bc) ∧
      Posix.kaizen_frame_time_aggregate true ab ⟨⟨3, 800000000⟩⟩
        = some (KAIZEN_SUCCESS, abc) ∧
      Posix.kaizen_frame_time_aggregate true ⟨⟨1, 600000000⟩⟩ bc
        = some (KAIZEN_SUCCESS, abc) :=
  posix_aggregate_commutative_associative ⟨⟨1, 600000000⟩⟩ ⟨⟨2, 700000000⟩⟩
    ⟨⟨3, 800000000⟩⟩ (by decide) (by decide) (by decide)

/-- C38: in the mach backend, for tick values `a`, `b` whose exact sum is below
`2 ^ 64`, `kaizen_frame_time_aggregate (a, b)` returns `KAIZEN_SUCCESS` with some value
`s`, and `kaizen_frame_time_subtract (s, b)` returns `KAIZEN_SUCCESS` with exactly `a`;
with assertions checked as well as without, so the ordering assertion of subtract
holds. -/
theorem mach_subtract_aggregate_round_trip (ndebug : Bool)
    (a b : Mach.kaizen_raw_frame_time_s)
    (hsum : a.interval + b.interval < 2 ^ 64) :
    ∃ s, Mach.kaizen_frame_time_aggregate ndebug a b = some (KAIZEN_SUCCESS, s) ∧
      s.interval = a.interval + b.interval ∧
      Mach.kaizen_frame_time_subtract ndebug s b = some (KAIZEN_SUCCESS, a) := by
  have hadd : uint64_add a.interval b.interval = a.interval + b.interval := by
    unfold uint64_add; omega
  have hsub : uint64_sub (a.interval + b.interval) b.interval = a.interval := by
    unfold uint64_sub; omega
  refine ⟨{ interval := a.interval + b.interval }, ?_, rfl, ?_⟩
  · cases ndebug <;>
      simp [Mach.kaizen_frame_time_aggregate, c_assert, hadd]
  · cases ndebug <;>
      simp [Mach.kaizen_frame_time_subtract, c_assert, hsub]

/-- Witness of C38 in the debug build at `a = 2 ^ 64 - 2`, `b = 1`. -/
theorem mach_subtract_aggregate_round_trip_witness :
    ∃ s, Mach.kaizen_frame_time_aggregate false { interval := 18446744073709551614 }
          { interval := 1 } = some (KAIZEN_SUCCESS, s) ∧
      s.interval = 18446744073709551614 + 1 ∧
      Mach.kaizen_frame_time_subtract false s { interval := 1 }
        = some (KAIZEN_SUCCESS, { interval := 18446744073709551614 }) :=
  mach_subtract_aggregate_round_trip false { interval := 18446744073709551614 }
    { interval := 1 } (by norm_num)

/-- Mach integer conversion on a successful timebase query with a denominator that is
not zero, when the product does not wrap: the exact quotient. -/
theorem mach_convert_to_nanoseconds_uint64_exact_without_wrap_aux (ndebug : Bool)
    (timebase : Mach.mach_timebase_info_data_t) (time : Mach.kaizen_raw_frame_time_s)
    (result : Nat)
    (hn : timebase.numer < 2 ^ 32) (hd : 0 < timebase.denom)
    (hd32 : timebase.denom < 2 ^ 32)
    (hprod : time.interval * timebase.numer < 2 ^ 64) :
    Mach.kaizen_internal_frame_time_convert_to_nanoseconds_uint64 ndebug Mach.KERN_SUCCESS
      timebase time result
      = some (KAIZEN_SUCCESS, time.interval * timebase.numer / timebase.denom) := by
  have hnum : timebase.numer % 2 ^ 64 = timebase.numer := Nat.mod_eq_of_lt (by omega)
  have hden : timebase.denom % 2 ^ 64 = timebase.denom := Nat.mod_eq_of_lt (by omega)
  have hne : ¬ (timebase.denom = 0) := by omega
  have hmod : (time.interval * timebase.numer) % 2 ^ 64
      = time.interval * timebase.numer := Nat.mod_eq_of_lt hprod
  simp only [Mach.kaizen_internal_frame_time_convert_to_nanoseconds_uint64, uint64_mul,
    hnum, hden, hne, hmod, if_true, if_false]

/-- C39: in the mach backend, for a timebase ratio `numer / denom` of `uint32_t` values
with `denom > 0` and tick intervals `d1 ≤ d2` with `d2 * numer < 2 ^ 64`, the integer
nanosecond conversion returns `KAIZEN_SUCCESS` for both and the value for `d1` is at most
the value for `d2`. -/
theorem mach_convert_to_nanoseconds_uint64_monotone (ndebug : Bool)
    (timebase : Mach.mach_timebase_info_data_t) (d1 d2 : Mach.kaizen_raw_frame_time_s)
    (result : Nat)
    (hn : timebase.numer < 2 ^ 32) (hd : 0 < timebase.denom)
    (hd32 : timebase.denom < 2 ^ 32)
    (hle : d1.interval ≤ d2.interval)
    (hprod : d2.interval * timebase.numer < 2 ^ 64) :
    ∃ n1 n2,
      Mach.kaizen_internal_frame_time_convert_to_nanoseconds_uint64 ndebug Mach.KERN_SUCCESS
        timebase d1 result = some (KAIZEN_SUCCESS, n1) ∧
      Mach.kaizen_internal_frame_time_convert_to_nanoseconds_uint64 ndebug Mach.KERN_SUCCESS
        timebase d2 result = some (KAIZEN_SUCCESS, n2) ∧
      n1 = d1.interval * timebase.numer / timebase.denom ∧
      n2 = d2.interval * timebase.numer / timebase.denom ∧
      n1 ≤ n2 := by
  have hmul : d1.interval * timebase.numer ≤ d2.interval * timebase.numer :=
    Nat.mul_le_mul_right _ hle
  have hprod1 : d1.interval * timebase.numer < 2 ^ 64 := Nat.lt_of_le_of_lt hmul hprod
  have h1 := (mach_convert_to_nanoseconds_uint64_exact_without_wrap_aux ndebug timebase d1
    result hn hd hd32 hprod1)
  have h2 := (mach_convert_to_nanoseconds_uint64_exact_without_wrap_aux ndebug timebase d2
    result hn hd hd32 hprod)
  exact ⟨_, _, h1, h2, rfl, rfl, Nat.div_le_div_right hmul⟩

/-- Witness of C39 at the ratio `125 / 3` and the intervals 1000 and 1001 ticks. -/
theorem mach_convert_to_nanoseconds_uint64_monotone_witness :
    ∃ n1 n2,
      Mach.kaizen_internal_frame_time_convert_to_nanoseconds_uint64 false Mach.KERN_SUCCESS
        { numer := 125, denom := 3 } { interval := 1000 } 0 = some (KAIZEN_SUCCESS, n1) ∧
      Mach.kaizen_internal_frame_time_convert_to_nanoseconds_uint64 false Mach.KERN_SUCCESS
        { numer := 125, denom := 3 } { interval := 1001 } 0 = some (KAIZEN_SUCCESS, n2) ∧
      n1 = 1000 * 125 / 3 ∧
      n2 = 1001 * 125 / 3 ∧
      n1 ≤ n2 :=
  mach_convert_to_nanoseconds_uint64_monotone false { numer := 125, denom := 3 }
    { interval := 1000 } { interval := 1001 } 0
    (by norm_num) (by norm_num) (by norm_num) (by norm_num) (by norm_num)

end Kaizen
